import Mathlib

/-!
Verification of the Moshcast "Go Live" session-synchronization engine.

The repository contains two revisions of the Socket.IO engine:

* namespace `Part001` models the revision in `src/unnamed/part_001`
  (session map `activeSessions` keyed by `username.toLowerCase()`,
  room prefix `live:`);
* namespace `IndexJs` models the revision in `src/src/index.js`
  (session object `sessions` keyed by the raw `username`,
  room prefix `stream:`).

JavaScript `Map`s and object property tables are modelled as
insertion-ordered association lists (`Map.set` / property assignment keep
the original position of an existing key and append a new one), `Set`s as
duplicate-free lists, playback positions as `Rat`, millisecond timestamps
as `Int`, and a possibly-`undefined` value as an `Option`.  A handler that
throws (`username.toLowerCase()` on `undefined` in `part_001`) is modelled
by `Option.none` as the dispatch result; every such throw happens before
any mutation, so the state is unchanged.
-/

namespace Moshcast

/-- JS truthiness of a possibly-undefined string: `undefined` and `""` are falsy. -/
def jsTruthy : Option String → Bool
  | none => false
  | some s => !(s == "")

/-- JS string coercion of a possibly-undefined string (template literals print `undefined`). -/
def jsStr : Option String → String
  | none => "undefined"
  | some s => s

/-- JS object-property key coercion: `obj[undefined]` accesses the key `"undefined"`. -/
def jsKey : Option String → String
  | none => "undefined"
  | some s => s

/-- `username.toLowerCase()` (character-by-character lowercasing, matching
JS on the ASCII identities this engine handles). -/
def jsToLower (s : String) : String := ⟨s.data.map Char.toLower⟩

/-- Lookup in an insertion-ordered association list (JS `Map.get` / property read). -/
def alookup (k : String) : List (String × α) → Option α
  | [] => none
  | (k', v) :: rest => if k' = k then some v else alookup k rest

/-- JS `Map.set` / property assignment: update in place, append when absent. -/
def aset (k : String) (v : α) : List (String × α) → List (String × α)
  | [] => [(k, v)]
  | (k', v') :: rest => if k' = k then (k, v) :: rest else (k', v') :: aset k v rest

/-- JS `Map.delete` / `delete obj[k]`. -/
def aerase (k : String) : List (String × α) → List (String × α)
  | [] => []
  | (k', v') :: rest => if k' = k then rest else (k', v') :: aerase k rest

/-- JS `Set.add`: no-op when the element is present, append otherwise. -/
def setAdd (c : String) (l : List String) : List String :=
  if c ∈ l then l else l ++ [c]

/-- JS `Set.delete`. -/
def setDel (c : String) (l : List String) : List String :=
  l.filter (fun x => x ≠ c)

/-- Delivery target of a Socket.IO emit. -/
inductive Target
  | sender
  | room (name : String)
  | roomExcept (name : String) (excluded : String)
  deriving DecidableEq

/-- Outbound event payloads emitted by either revision of the engine. -/
inductive Ev
  | hostStarted (listenerCount : Option Nat)
  | streamError (error : String) (code : String)
  | streamUpdate (song : Option String) (position : Rat) (isPlaying : Bool) (serverTime : Option Int)
  | streamEnded (message : String)
  | streamState (song : Option String) (position : Rat) (isPlaying : Bool) (listenerCount : Nat)
  | streamListeners (count : Nat)
  | chatMessage (type : String) (username : Option String) (text : String)
      (timestamp : Int) (senderId : Option String)
  deriving DecidableEq

/-- One outbound emit: a target and a payload. -/
structure Emit where
  target : Target
  payload : Ev
  deriving DecidableEq

/-- Inbound actions of the six kinds handled by both revisions.
Payload fields that a client may omit are `Option`s. -/
inductive Action
  | hostStart (username : Option String) (song : Option String)
  | hostUpdate (username : Option String) (song : Option String)
      (position : Option Rat) (isPlaying : Option Bool)
  | hostEnd (username : Option String)
  | listenerJoin (username : Option String) (listenerName : Option String)
  | chatSend (username : Option String) (message : String) (senderName : String)
  | disconnect
  deriving DecidableEq

/-- An inbound action together with its sender connection and the value of
`Date.now()` while the handler runs. -/
structure TimedAction where
  sender : String
  now : Int
  act : Action
  deriving DecidableEq

/-- The first `stream:state` position found in an emit list, if any. -/
def firstStatePosition : List Emit → Option Rat
  | [] => none
  | ⟨_, Ev.streamState _ p _ _⟩ :: _ => some p
  | _ :: rest => firstStatePosition rest

/-- Modelled from the spec: the Position Clock of section 4.3, which the
spec describes as returning `positionBaseline` when not playing and
`positionBaseline + (now − lastUpdateTimestamp)` in seconds, floored at
zero, when playing.  Used only to compare the spec account with the code. -/
def specPositionClock (baseline : Rat) (isPlaying : Bool) (lastUpdate now : Int) : Rat :=
  if isPlaying then max 0 (baseline + ((now - lastUpdate : Int) : Rat) / 1000) else baseline

namespace Part001

/-- One entry of `activeSessions` in `src/unnamed/part_001`. -/
structure Session where
  hostSocketId : String
  username : String
  song : Option String
  position : Rat
  isPlaying : Bool
  startedAt : Int
  lastUpdate : Int
  listeners : List String
  deriving DecidableEq

/-- Per-socket data: `socket.listenerData = { username, name }` set on
`listener:join` (the stored `username` is already lowercased). -/
structure SockInfo where
  listenerData : Option (String × String)
  deriving DecidableEq

/-- Server state of the `part_001` revision: the `activeSessions` map, the
Socket.IO rooms, and the per-socket data. -/
structure State where
  activeSessions : List (String × Session)
  rooms : List (String × List String)
  socks : List (String × SockInfo)
  deriving DecidableEq

/-- The state at process start: no sessions, no rooms, no socket data. -/
def initState : State := ⟨[], [], []⟩

/-- `socket.join(roomName)`. -/
def joinRoom (c roomName : String) (rooms : List (String × List String)) :
    List (String × List String) :=
  aset roomName (setAdd c ((alookup roomName rooms).getD [])) rooms

/-- On transport disconnect a socket leaves every room it was in. -/
def leaveAllRooms (c : String) (rooms : List (String × List String)) :
    List (String × List String) :=
  rooms.map (fun p => (p.1, setDel c p.2))

/-- The departure chat notice of the `part_001` disconnect handler: emitted
only when `socket.listenerData` is set, using the stored display name. -/
def departureNotice (k : String) (now : Int) : Option SockInfo → List Emit
  | some ⟨some (_, name)⟩ =>
    [⟨Target.room ("live:" ++ k), Ev.chatMessage "system" none (name ++ " left") now none⟩]
  | _ => []

/-- The disconnect sweep of `part_001`: iterate `activeSessions.entries()`
in insertion order; on the host branch broadcast `stream:ended`, delete the
session and return from the whole handler (the remaining entries are left
untouched); on the listener branch remove the socket, broadcast the new
count and, when `socket.listenerData` is set, a departure chat notice. -/
def sweep (c : String) (now : Int) (sockInfo : Option SockInfo) :
    List (String × Session) → List (String × Session) × List Emit
  | [] => ([], [])
  | (k, sess) :: rest =>
    if sess.hostSocketId = c then
      (rest, [⟨Target.room ("live:" ++ k), Ev.streamEnded "Host disconnected"⟩])
    else if c ∈ sess.listeners then
      let sess' := { sess with listeners := setDel c sess.listeners }
      let evs :=
        ⟨Target.room ("live:" ++ k), Ev.streamListeners sess'.listeners.length⟩ ::
        departureNotice k now sockInfo
      let r := sweep c now sockInfo rest
      ((k, sess') :: r.1, evs ++ r.2)
    else
      let r := sweep c now sockInfo rest
      ((k, sess) :: r.1, r.2)

/-- The event dispatch of `src/unnamed/part_001`.  `none` models a handler
that throws (`username.toLowerCase()` on a missing `username`); every such
throw precedes any mutation or emit. -/
def dispatch (c : String) (now : Int) (s : State) : Action → Option (State × List Emit)
  | Action.hostStart u song =>
    match u with
    | none => none
    | some uname =>
      let key := jsToLower uname
      let roomName := "live:" ++ key
      let sess : Session := ⟨c, uname, song, 0, true, now, now, []⟩
      some ({ s with rooms := joinRoom c roomName s.rooms,
                     activeSessions := aset key sess s.activeSessions },
        [⟨Target.sender, Ev.hostStarted none⟩])
  | Action.hostUpdate u song position isPlaying =>
    match u with
    | none => none
    | some uname =>
      let key := jsToLower uname
      match alookup key s.activeSessions with
      | some sess =>
        if sess.hostSocketId = c then
          let sess' := { sess with
            song := if jsTruthy song then song else sess.song,
            position := position.getD sess.position,
            isPlaying := isPlaying.getD sess.isPlaying,
            lastUpdate := now }
          some ({ s with activeSessions := aset key sess' s.activeSessions },
            [⟨Target.roomExcept ("live:" ++ key) c,
              Ev.streamUpdate sess'.song sess'.position sess'.isPlaying (some now)⟩])
        else some (s, [])
      | none => some (s, [])
  | Action.hostEnd u =>
    match u with
    | none => none
    | some uname =>
      let key := jsToLower uname
      some ({ s with activeSessions := aerase key s.activeSessions },
        [⟨Target.room ("live:" ++ key), Ev.streamEnded "Host ended the session"⟩])
  | Action.listenerJoin u listenerName =>
    match u with
    | none => none
    | some uname =>
      let key := jsToLower uname
      let roomName := "live:" ++ key
      match alookup key s.activeSessions with
      | none => some (s, [⟨Target.sender, Ev.streamError "Session not found" "NOT_FOUND"⟩])
      | some sess =>
        let sess' := { sess with listeners := setAdd c sess.listeners }
        let elapsed : Rat := ((now - sess.lastUpdate : Int) : Rat) / 1000
        let currentPosition := if sess.isPlaying then sess.position + elapsed else sess.position
        some ({ s with rooms := joinRoom c roomName s.rooms,
                       activeSessions := aset key sess' s.activeSessions,
                       socks := aset c ⟨some (key, listenerName.getD "Anonymous")⟩ s.socks },
          [⟨Target.sender,
            Ev.streamState sess'.song currentPosition sess'.isPlaying sess'.listeners.length⟩,
           ⟨Target.room roomName, Ev.streamListeners sess'.listeners.length⟩,
           ⟨Target.room roomName,
            Ev.chatMessage "system" none (listenerName.getD "Someone" ++ " joined") now none⟩])
  | Action.chatSend u message senderName =>
    match u with
    | none => none
    | some uname =>
      let roomName := "live:" ++ jsToLower uname
      some (s, [⟨Target.room roomName,
        Ev.chatMessage "user" (some senderName) message now (some c)⟩])
  | Action.disconnect =>
    let s0 := { s with rooms := leaveAllRooms c s.rooms }
    let r := sweep c now (alookup c s.socks) s0.activeSessions
    some ({ s0 with activeSessions := r.1 }, r.2)

/-- State transition of one timed action (a thrown handler mutates nothing). -/
def step (s : State) (ta : TimedAction) : State :=
  match dispatch ta.sender ta.now s ta.act with
  | some r => r.1
  | none => s

/-- Process a list of timed actions in order. -/
def run (s : State) : List TimedAction → State
  | [] => s
  | ta :: rest => run (step s ta) rest

/-- The position-extrapolation computation inlined in the `listener:join`
handler of `part_001`, as a standalone pure function. -/
def positionClock (position : Rat) (isPlaying : Bool) (lastUpdate now : Int) : Rat :=
  if isPlaying then position + ((now - lastUpdate : Int) : Rat) / 1000 else position

/-- The events emitted by one action (empty when the handler throws). -/
def emits (c : String) (now : Int) (s : State) (a : Action) : List Emit :=
  match dispatch c now s a with
  | some r => r.2
  | none => []

/-- Whether a timed action is a `host:start` that would (re)create the
session key `k`: `part_001` keys sessions by `username.toLowerCase()`, and
a `host:start` with a missing username throws before creating anything. -/
def createsKeyB (k : String) (ta : TimedAction) : Bool :=
  match ta.act with
  | Action.hostStart (some u) _ => jsToLower u == k
  | _ => false

/-- No stored session's `listeners` set contains its own `hostSocketId`. -/
def HostNotListener (s : State) : Prop :=
  ∀ p ∈ s.activeSessions, p.2.hostSocketId ∉ p.2.listeners

/-- Whether a timed action is a `listener:join` issued by the connection
that is currently the host of the targeted session. -/
def selfJoinB (s : State) (ta : TimedAction) : Bool :=
  match ta.act with
  | Action.listenerJoin (some u) _ =>
    match alookup (jsToLower u) s.activeSessions with
    | some sess => sess.hostSocketId == ta.sender
    | none => false
  | _ => false

/-- No action of the trace is a self-join at its point of execution. -/
def NoSelfJoinRun (s : State) : List TimedAction → Bool
  | [] => true
  | ta :: rest => !selfJoinB s ta && NoSelfJoinRun (step s ta) rest

end Part001

namespace IndexJs

/-- One entry of `sessions` in `src/src/index.js`. -/
structure Session where
  hostSocketId : String
  song : Option String
  isPlaying : Bool
  position : Rat
  startedAt : Int
  listeners : List String
  deriving DecidableEq

/-- Per-socket data set on `listener:join`: `socket.streamUsername = username`
and `socket.listenerName = listenerName` (both possibly undefined). -/
structure SockInfo where
  streamUsername : Option String
  listenerName : Option String
  deriving DecidableEq

/-- Server state of the `index.js` revision: the `sessions` object, the
Socket.IO rooms, and the per-socket data. -/
structure State where
  sessions : List (String × Session)
  rooms : List (String × List String)
  socks : List (String × SockInfo)
  deriving DecidableEq

/-- The state at process start: no sessions, no rooms, no socket data. -/
def initState : State := ⟨[], [], []⟩

/-- `socket.join(roomName)`. -/
def joinRoom (c roomName : String) (rooms : List (String × List String)) :
    List (String × List String) :=
  aset roomName (setAdd c ((alookup roomName rooms).getD [])) rooms

/-- On transport disconnect a socket leaves every room it was in. -/
def leaveAllRooms (c : String) (rooms : List (String × List String)) :
    List (String × List String) :=
  rooms.map (fun p => (p.1, setDel c p.2))

/-- The disconnect sweep of `index.js`: iterate `Object.entries(sessions)`
in insertion order; on the host branch broadcast `stream:ended`, delete the
session and return from the whole handler; on the listener branch remove
the socket, broadcast the new count and, when `socket.listenerName` is
truthy, a departure chat notice (sent with `socket.to`, excluding the
disconnected socket itself). -/
def sweep (c : String) (now : Int) (sockInfo : Option SockInfo) :
    List (String × Session) → List (String × Session) × List Emit
  | [] => ([], [])
  | (k, sess) :: rest =>
    if sess.hostSocketId = c then
      (rest, [⟨Target.room ("stream:" ++ k), Ev.streamEnded "The host disconnected"⟩])
    else if c ∈ sess.listeners then
      let sess' := { sess with listeners := setDel c sess.listeners }
      let name := (sockInfo.map SockInfo.listenerName).join
      let evs :=
        ⟨Target.room ("stream:" ++ k), Ev.streamListeners sess'.listeners.length⟩ ::
        (if jsTruthy name then
          [⟨Target.roomExcept ("stream:" ++ k) c,
            Ev.chatMessage "system" none (jsStr name ++ " left the stream") now none⟩]
         else [])
      let r := sweep c now sockInfo rest
      ((k, sess') :: r.1, evs ++ r.2)
    else
      let r := sweep c now sockInfo rest
      ((k, sess) :: r.1, r.2)

/-- The event dispatch of `src/src/index.js`.  All handlers are total: a
missing `username` is coerced to the property key `"undefined"`. -/
def dispatch (c : String) (now : Int) (s : State) : Action → State × List Emit
  | Action.hostStart u song =>
    let key := jsKey u
    let sess : Session := ⟨c, song, true, 0, now, []⟩
    ({ s with sessions := aset key sess s.sessions,
              rooms := joinRoom c ("stream:" ++ key) s.rooms },
     [⟨Target.sender, Ev.hostStarted (some 0)⟩])
  | Action.hostUpdate u song position isPlaying =>
    let key := jsKey u
    match alookup key s.sessions with
    | none => (s, [⟨Target.sender, Ev.streamError "Not authorized" "NOT_HOST"⟩])
    | some sess =>
      if sess.hostSocketId = c then
        let sess' := { sess with
          song := if song.isSome then song else sess.song,
          isPlaying := isPlaying.getD sess.isPlaying,
          position := position.getD sess.position,
          startedAt := if position.isSome then now else sess.startedAt }
        ({ s with sessions := aset key sess' s.sessions },
         [⟨Target.roomExcept ("stream:" ++ key) c,
           Ev.streamUpdate sess'.song sess'.position sess'.isPlaying none⟩])
      else (s, [⟨Target.sender, Ev.streamError "Not authorized" "NOT_HOST"⟩])
  | Action.hostEnd u =>
    let key := jsKey u
    match alookup key s.sessions with
    | none => (s, [])
    | some sess =>
      if sess.hostSocketId = c then
        ({ s with sessions := aerase key s.sessions },
         [⟨Target.room ("stream:" ++ key), Ev.streamEnded "The host ended the stream"⟩])
      else (s, [])
  | Action.listenerJoin u listenerName =>
    let key := jsKey u
    match alookup key s.sessions with
    | none => (s, [⟨Target.sender, Ev.streamError "Stream not found or offline" "NOT_FOUND"⟩])
    | some sess =>
      let sess' := { sess with listeners := setAdd c sess.listeners }
      let currentPosition :=
        if sess.isPlaying && jsTruthy sess.song then
          sess.position + ((now - sess.startedAt : Int) : Rat) / 1000
        else sess.position
      ({ s with sessions := aset key sess' s.sessions,
                rooms := joinRoom c ("stream:" ++ key) s.rooms,
                socks := aset c ⟨u, listenerName⟩ s.socks },
       [⟨Target.sender,
         Ev.streamState sess'.song currentPosition sess'.isPlaying sess'.listeners.length⟩,
        ⟨Target.room ("stream:" ++ key), Ev.streamListeners sess'.listeners.length⟩,
        ⟨Target.roomExcept ("stream:" ++ key) c,
         Ev.chatMessage "system" none (jsStr listenerName ++ " joined the stream") now none⟩])
  | Action.chatSend u message senderName =>
    let key := jsKey u
    match alookup key s.sessions with
    | none => (s, [])
    | some _ =>
      (s, [⟨Target.room ("stream:" ++ key),
        Ev.chatMessage "chat" (some senderName) message now (some c)⟩])
  | Action.disconnect =>
    let s0 := { s with rooms := leaveAllRooms c s.rooms }
    let r := sweep c now (alookup c s.socks) s0.sessions
    ({ s0 with sessions := r.1 }, r.2)

/-- State transition of one timed action. -/
def step (s : State) (ta : TimedAction) : State :=
  (dispatch ta.sender ta.now s ta.act).1

/-- Process a list of timed actions in order. -/
def run (s : State) : List TimedAction → State
  | [] => s
  | ta :: rest => run (step s ta) rest

/-- The position-extrapolation computation inlined in the `listener:join`
handler of `index.js`, as a standalone pure function (it also consults the
stored `song`: a session playing with no truthy song is not extrapolated). -/
def positionClock (position : Rat) (isPlaying : Bool) (song : Option String)
    (startedAt now : Int) : Rat :=
  if isPlaying && jsTruthy song then
    position + ((now - startedAt : Int) : Rat) / 1000
  else position

/-- The events emitted by one action. -/
def emits (c : String) (now : Int) (s : State) (a : Action) : List Emit :=
  (dispatch c now s a).2

/-- Whether a timed action is a `host:start` that would (re)create the
session key `k`: `index.js` keys sessions by the raw `username`, a missing
one being coerced to the property key `"undefined"`. -/
def createsKeyB (k : String) (ta : TimedAction) : Bool :=
  match ta.act with
  | Action.hostStart u _ => jsKey u == k
  | _ => false

/-- No stored session's `listeners` set contains its own `hostSocketId`. -/
def HostNotListener (s : State) : Prop :=
  ∀ p ∈ s.sessions, p.2.hostSocketId ∉ p.2.listeners

/-- Whether a timed action is a `listener:join` issued by the connection
that is currently the host of the targeted session. -/
def selfJoinB (s : State) (ta : TimedAction) : Bool :=
  match ta.act with
  | Action.listenerJoin u _ =>
    match alookup (jsKey u) s.sessions with
    | some sess => sess.hostSocketId == ta.sender
    | none => false
  | _ => false

/-- No action of the trace is a self-join at its point of execution. -/
def NoSelfJoinRun (s : State) : List TimedAction → Bool
  | [] => true
  | ta :: rest => !selfJoinB s ta && NoSelfJoinRun (step s ta) rest

end IndexJs

/-! ### Association-list and set lemmas -/

theorem alookup_aset_self (k : String) (v : α) : ∀ l : List (String × α),
    alookup k (aset k v l) = some v
  | [] => by simp [aset, alookup]
  | (k₀, v₀) :: rest => by
    by_cases h : k₀ = k
    · simp [aset, h, alookup]
    · simp [aset, h, alookup, alookup_aset_self k v rest]

theorem alookup_aset_ne {k' k : String} (v : α) (h : k' ≠ k) : ∀ l : List (String × α),
    alookup k (aset k' v l) = alookup k l
  | [] => by simp [aset, alookup, h]
  | (k₀, v₀) :: rest => by
    by_cases h0 : k₀ = k'
    · subst h0
      simp [aset, alookup, h]
    · by_cases h1 : k₀ = k
      · subst h1
        simp [aset, h0, Ne.symm h, alookup]
      · simp [aset, h0, alookup, h1, alookup_aset_ne v h rest]

theorem alookup_aerase_none {k' k : String} (h : alookup k l = none) :
    alookup k (aerase k' l) = none := by
  induction l with
  | nil => simpa [aerase] using h
  | cons p rest ih =>
    obtain ⟨k₀, v₀⟩ := p
    by_cases h1 : k₀ = k
    · simp [alookup, h1] at h
    · have hrest : alookup k rest = none := by simpa [alookup, h1] using h
      by_cases h0 : k₀ = k'
      · simpa [aerase, h0] using hrest
      · simp [aerase, h0, alookup, h1, ih hrest]

theorem alookup_eq_none_of_not_mem {k : String} :
    ∀ {l : List (String × α)}, k ∉ l.map Prod.fst → alookup k l = none
  | [], _ => rfl
  | (k₀, v₀) :: rest, h => by
    have h0 : k₀ ≠ k := by
      intro e
      exact h (by simp [e])
    have hrest : k ∉ rest.map Prod.fst := by
      intro m
      exact h (by simp [m])
    simp [alookup, h0, alookup_eq_none_of_not_mem hrest]

theorem alookup_mem {k : String} {v : α} :
    ∀ {l : List (String × α)}, alookup k l = some v → (k, v) ∈ l
  | [], h => by simp [alookup] at h
  | (k₀, v₀) :: rest, h => by
    by_cases h0 : k₀ = k
    · subst h0
      simp [alookup] at h
      simp [h]
    · have : alookup k rest = some v := by simpa [alookup, h0] using h
      exact List.mem_cons_of_mem _ (alookup_mem this)

theorem mem_aset {p : String × α} {k : String} {v : α} :
    ∀ {l : List (String × α)}, p ∈ aset k v l → p = (k, v) ∨ p ∈ l
  | [], h => by simpa [aset] using h
  | (k₀, v₀) :: rest, h => by
    by_cases h0 : k₀ = k
    · rcases by simpa [aset, h0] using h with h1 | h1
      · exact Or.inl h1
      · exact Or.inr (List.mem_cons_of_mem _ h1)
    · rcases by simpa [aset, h0] using h with h1 | h1
      · exact Or.inr (by simp [h1])
      · rcases mem_aset h1 with h2 | h2
        · exact Or.inl h2
        · exact Or.inr (List.mem_cons_of_mem _ h2)

theorem mem_aerase {p : String × α} {k : String} :
    ∀ {l : List (String × α)}, p ∈ aerase k l → p ∈ l
  | [], h => by simpa [aerase] using h
  | (k₀, v₀) :: rest, h => by
    by_cases h0 : k₀ = k
    · exact List.mem_cons_of_mem _ (by simpa [aerase, h0] using h)
    · rcases by simpa [aerase, h0] using h with h1 | h1
      · exact by simp [h1]
      · exact List.mem_cons_of_mem _ (mem_aerase h1)

theorem alookup_map_val (f : α → β) (k : String) : ∀ l : List (String × α),
    alookup k (l.map (fun p => (p.1, f p.2))) = (alookup k l).map f
  | [] => rfl
  | (k₀, v₀) :: rest => by
    by_cases h0 : k₀ = k
    · simp [alookup, h0]
    · simp [alookup, h0, alookup_map_val f k rest]

theorem mem_setDel {x c : String} {l : List String} : x ∈ setDel c l ↔ x ∈ l ∧ x ≠ c := by
  simp [setDel]

theorem setDel_eq_self {c : String} {l : List String} (h : c ∉ l) : setDel c l = l := by
  refine List.filter_eq_self.mpr ?_
  intro x hx
  have hne : x ≠ c := fun e => h (e ▸ hx)
  simpa using hne

theorem mem_setAdd {x c : String} {l : List String} : x ∈ setAdd c l ↔ x ∈ l ∨ x = c := by
  by_cases h : c ∈ l
  · simp only [setAdd, if_pos h]
    constructor
    · exact Or.inl
    · rintro (hx | rfl)
      · exact hx
      · exact h
  · simp [setAdd, if_neg h]

theorem setDel_eq_erase {c : String} {l : List String} (hnd : l.Nodup) :
    setDel c l = l.erase c := by
  rw [List.Nodup.erase_eq_filter hnd]
  apply List.filter_congr
  intro x hx
  by_cases h : x = c <;> simp [h, bne]

theorem setDel_length {c : String} {l : List String} (hnd : l.Nodup) (hc : c ∈ l) :
    (setDel c l).length + 1 = l.length := by
  rw [setDel_eq_erase hnd, List.length_erase_of_mem hc]
  exact Nat.succ_pred_eq_of_pos (List.length_pos_of_mem hc)

theorem setDel_idem {c : String} {l : List String} : setDel c (setDel c l) = setDel c l := by
  simp [setDel, List.filter_filter]

/-! ### Lemmas about the `part_001` revision -/

namespace Part001

theorem leaveAllRooms_idem {c : String} {rooms : List (String × List String)} :
    leaveAllRooms c (leaveAllRooms c rooms) = leaveAllRooms c rooms := by
  simp [leaveAllRooms, Function.comp_def, setDel_idem]

theorem sweep_fst_lookup_none {c : String} {now : Int} {si : Option SockInfo} {k : String} :
    ∀ {l : List (String × Session)}, alookup k l = none →
      alookup k (sweep c now si l).1 = none
  | [], _ => rfl
  | (k₀, sess) :: rest, h => by
    have hk : k₀ ≠ k := fun e => by simp [alookup, e] at h
    have hrest : alookup k rest = none := by simpa [alookup, hk] using h
    by_cases hh : sess.hostSocketId = c
    · simpa [sweep, hh] using hrest
    · by_cases hm : c ∈ sess.listeners
      · simp [sweep, hh, hm, alookup, hk, sweep_fst_lookup_none hrest]
      · simp [sweep, hh, hm, alookup, hk, sweep_fst_lookup_none hrest]

theorem sweep_fst_mem {c : String} {now : Int} {si : Option SockInfo} :
    ∀ {l : List (String × Session)} {p : String × Session}, p ∈ (sweep c now si l).1 →
      ∃ q ∈ l, p.1 = q.1 ∧ p.2.hostSocketId = q.2.hostSocketId ∧
        ∀ x ∈ p.2.listeners, x ∈ q.2.listeners
  | [], p, h => by simp [sweep] at h
  | (k₀, sess) :: rest, p, h => by
    by_cases hh : sess.hostSocketId = c
    · have hp : p ∈ rest := by simpa [sweep, hh] using h
      exact ⟨p, List.mem_cons_of_mem _ hp, rfl, rfl, fun x hx => hx⟩
    · by_cases hm : c ∈ sess.listeners
      · have hp : p = (k₀, { sess with listeners := setDel c sess.listeners }) ∨
            p ∈ (sweep c now si rest).1 := by
          simpa [sweep, hh, hm] using h
        rcases hp with rfl | hp
        · exact ⟨(k₀, sess), by simp, rfl, rfl, fun x hx => (mem_setDel.mp hx).1⟩
        · obtain ⟨q, hq, h1, h2, h3⟩ := sweep_fst_mem hp
          exact ⟨q, List.mem_cons_of_mem _ hq, h1, h2, h3⟩
      · have hp : p = (k₀, sess) ∨ p ∈ (sweep c now si rest).1 := by
          simpa [sweep, hh, hm] using h
        rcases hp with rfl | hp
        · exact ⟨(k₀, sess), by simp, rfl, rfl, fun x hx => hx⟩
        · obtain ⟨q, hq, h1, h2, h3⟩ := sweep_fst_mem hp
          exact ⟨q, List.mem_cons_of_mem _ hq, h1, h2, h3⟩

theorem sweep_fst_no_host {c : String} {now : Int} {si : Option SockInfo} :
    ∀ {l : List (String × Session)}, (∀ p ∈ l, p.2.hostSocketId ≠ c) →
      (sweep c now si l).1 =
        l.map (fun p => (p.1, { p.2 with listeners := setDel c p.2.listeners }))
  | [], _ => rfl
  | (k₀, sess) :: rest, h => by
    have hh : sess.hostSocketId ≠ c := h (k₀, sess) (by simp)
    have hrest : ∀ p ∈ rest, p.2.hostSocketId ≠ c :=
      fun p hp => h p (List.mem_cons_of_mem _ hp)
    by_cases hm : c ∈ sess.listeners
    · simp [sweep, hh, hm, sweep_fst_no_host hrest]
    · simp [sweep, hh, hm, sweep_fst_no_host hrest, setDel_eq_self hm]

theorem sweep_eq_of_clean {c : String} {now : Int} {si : Option SockInfo} :
    ∀ {l : List (String × Session)},
      (∀ p ∈ l, p.2.hostSocketId ≠ c ∧ c ∉ p.2.listeners) →
      sweep c now si l = (l, [])
  | [], _ => rfl
  | (k₀, sess) :: rest, h => by
    obtain ⟨hh, hm⟩ := h (k₀, sess) (by simp)
    have hrest : ∀ p ∈ rest, p.2.hostSocketId ≠ c ∧ c ∉ p.2.listeners :=
      fun p hp => h p (List.mem_cons_of_mem _ hp)
    simp [sweep, hh, hm, sweep_eq_of_clean hrest]

theorem sweep_host_removed {c : String} {now : Int} {si : Option SockInfo} {k : String}
    {sess : Session} :
    ∀ {l : List (String × Session)},
      alookup k l = some sess → sess.hostSocketId = c →
      (∀ p ∈ l, p.2.hostSocketId = c → p.1 = k) →
      (l.map Prod.fst).Nodup →
      alookup k (sweep c now si l).1 = none ∧
      ⟨Target.room ("live:" ++ k), Ev.streamEnded "Host disconnected"⟩ ∈ (sweep c now si l).2
  | [], h, _, _, _ => by simp [alookup] at h
  | (k₀, s₀) :: rest, h, hhost, honly, hnd => by
    rw [List.map_cons] at hnd
    have hndhead := (List.nodup_cons.mp hnd).1
    have hndtail := (List.nodup_cons.mp hnd).2
    by_cases hh : s₀.hostSocketId = c
    · have hk : k₀ = k := honly (k₀, s₀) (by simp) hh
      subst hk
      refine ⟨?_, by simp [sweep, hh]⟩
      simpa [sweep, hh] using alookup_eq_none_of_not_mem hndhead
    · have hk : k₀ ≠ k := by
        intro e
        subst e
        have hs : s₀ = sess := by simpa [alookup] using h
        exact hh (hs ▸ hhost)
      have hrest : alookup k rest = some sess := by simpa [alookup, hk] using h
      have honlyrest : ∀ p ∈ rest, p.2.hostSocketId = c → p.1 = k :=
        fun p hp => honly p (List.mem_cons_of_mem _ hp)
      obtain ⟨ih1, ih2⟩ :=
        @sweep_host_removed c now si k sess rest hrest hhost honlyrest hndtail
      by_cases hm : c ∈ s₀.listeners
      · refine ⟨by simp [sweep, hh, hm, alookup, hk, ih1], ?_⟩
        have h2 : (sweep c now si ((k₀, s₀) :: rest)).2 =
            (⟨Target.room ("live:" ++ k₀),
                Ev.streamListeners (setDel c s₀.listeners).length⟩ ::
              departureNotice k₀ now si) ++ (sweep c now si rest).2 := by
          simp [sweep, hh, hm]
        rw [h2]
        exact List.mem_append_right _ ih2
      · refine ⟨by simp [sweep, hh, hm, alookup, hk, ih1], ?_⟩
        have h2 : (sweep c now si ((k₀, s₀) :: rest)).2 = (sweep c now si rest).2 := by
          simp [sweep, hh, hm]
        rw [h2]
        exact ih2

theorem step_lookup_none {k : String} {s : State} {ta : TimedAction}
    (h : alookup k s.activeSessions = none) (hc : createsKeyB k ta = false) :
    alookup k (step s ta).activeSessions = none := by
  obtain ⟨c, now, a⟩ := ta
  cases a with
  | hostStart u song =>
    cases u with
    | none => simpa [step, dispatch] using h
    | some uname =>
      have hne : jsToLower uname ≠ k := by simpa [createsKeyB] using hc
      simpa [step, dispatch, alookup_aset_ne _ hne] using h
  | hostUpdate u song pos play =>
    cases u with
    | none => simpa [step, dispatch] using h
    | some uname =>
      by_cases hkey : jsToLower uname = k
      · simp [step, dispatch, hkey, h]
      · cases hsess : alookup (jsToLower uname) s.activeSessions with
        | none => simpa [step, dispatch, hsess] using h
        | some sess =>
          by_cases hhost : sess.hostSocketId = c
          · simpa [step, dispatch, hsess, hhost, alookup_aset_ne _ hkey] using h
          · simpa [step, dispatch, hsess, hhost] using h
  | hostEnd u =>
    cases u with
    | none => simpa [step, dispatch] using h
    | some uname => simpa [step, dispatch] using alookup_aerase_none h
  | listenerJoin u nm =>
    cases u with
    | none => simpa [step, dispatch] using h
    | some uname =>
      by_cases hkey : jsToLower uname = k
      · simp [step, dispatch, hkey, h]
      · cases hsess : alookup (jsToLower uname) s.activeSessions with
        | none => simpa [step, dispatch, hsess] using h
        | some sess => simpa [step, dispatch, hsess, alookup_aset_ne _ hkey] using h
  | chatSend u msg sn =>
    cases u with
    | none => simpa [step, dispatch] using h
    | some uname => simpa [step, dispatch] using h
  | disconnect =>
    simpa [step, dispatch] using sweep_fst_lookup_none h

theorem run_lookup_none {k : String} :
    ∀ {tas : List TimedAction} {s : State},
      alookup k s.activeSessions = none →
      (∀ ta ∈ tas, createsKeyB k ta = false) →
      alookup k (run s tas).activeSessions = none
  | [], _, h, _ => h
  | ta :: rest, s, h, hc => by
    have h1 := step_lookup_none h (hc ta (by simp))
    simpa [run] using run_lookup_none h1 (fun ta2 h2 => hc ta2 (List.mem_cons_of_mem _ h2))

theorem step_hostNotListener {s : State} {ta : TimedAction}
    (h : HostNotListener s) (hsj : selfJoinB s ta = false) :
    HostNotListener (step s ta) := by
  obtain ⟨c, now, a⟩ := ta
  cases a with
  | hostStart u song =>
    cases u with
    | none => simpa [step, dispatch] using h
    | some uname =>
      intro p hp
      have hp2 : p ∈ aset (jsToLower uname) ⟨c, uname, song, 0, true, now, now, []⟩
          s.activeSessions := by
        simpa [step, dispatch] using hp
      rcases mem_aset hp2 with rfl | hp3
      · simp
      · exact h p hp3
  | hostUpdate u song pos play =>
    cases u with
    | none => simpa [step, dispatch] using h
    | some uname =>
      cases hsess : alookup (jsToLower uname) s.activeSessions with
      | none => simpa [step, dispatch, hsess] using h
      | some sess =>
        by_cases hhost : sess.hostSocketId = c
        · intro p hp
          have hp2 : p ∈ aset (jsToLower uname)
              { sess with
                song := if jsTruthy song then song else sess.song,
                position := pos.getD sess.position,
                isPlaying := play.getD sess.isPlaying,
                lastUpdate := now } s.activeSessions := by
            simpa [step, dispatch, hsess, hhost] using hp
          rcases mem_aset hp2 with rfl | hp3
          · simpa using h _ (alookup_mem hsess)
          · exact h p hp3
        · simpa [step, dispatch, hsess, hhost] using h
  | hostEnd u =>
    cases u with
    | none => simpa [step, dispatch] using h
    | some uname =>
      intro p hp
      have hp2 : p ∈ aerase (jsToLower uname) s.activeSessions := by
        simpa [step, dispatch] using hp
      exact h p (mem_aerase hp2)
  | listenerJoin u nm =>
    cases u with
    | none => simpa [step, dispatch] using h
    | some uname =>
      cases hsess : alookup (jsToLower uname) s.activeSessions with
      | none => simpa [step, dispatch, hsess] using h
      | some sess =>
        have hne : sess.hostSocketId ≠ c := by
          have := hsj
          simp [selfJoinB, hsess] at this
          simpa using this
        intro p hp
        have hp2 : p ∈ aset (jsToLower uname)
            { sess with listeners := setAdd c sess.listeners } s.activeSessions := by
          simpa [step, dispatch, hsess] using hp
        rcases mem_aset hp2 with rfl | hp3
        · intro hmem
          rcases mem_setAdd.mp hmem with h1 | h1
          · exact h _ (alookup_mem hsess) h1
          · exact hne h1
        · exact h p hp3
  | chatSend u msg sn =>
    cases u with
    | none => simpa [step, dispatch] using h
    | some uname => simpa [step, dispatch] using h
  | disconnect =>
    intro p hp
    have hp2 : p ∈ (sweep c now (alookup c s.socks) s.activeSessions).1 := by
      simpa [step, dispatch] using hp
    obtain ⟨q, hq, _, h2, h3⟩ := sweep_fst_mem hp2
    intro hmem
    exact h q hq (h3 _ (h2 ▸ hmem) |> fun hx => h2 ▸ hx)

theorem run_hostNotListener :
    ∀ {tas : List TimedAction} {s : State}, HostNotListener s →
      NoSelfJoinRun s tas = true → HostNotListener (run s tas)
  | [], _, h, _ => h
  | ta :: rest, s, h, hn => by
    rw [NoSelfJoinRun, Bool.and_eq_true, Bool.not_eq_true'] at hn
    simpa [run] using run_hostNotListener (step_hostNotListener h hn.1) hn.2

end Part001

/-! ### Lemmas about the `index.js` revision -/

namespace IndexJs

theorem leaveAllRooms_idemIdx {c : String} {rooms : List (String × List String)} :
    leaveAllRooms c (leaveAllRooms c rooms) = leaveAllRooms c rooms := by
  simp [leaveAllRooms, Function.comp_def, setDel_idem]

theorem sweep_fst_lookup_noneIdx {c : String} {now : Int} {si : Option SockInfo} {k : String} :
    ∀ {l : List (String × Session)}, alookup k l = none →
      alookup k (sweep c now si l).1 = none
  | [], _ => rfl
  | (k₀, sess) :: rest, h => by
    have hk : k₀ ≠ k := fun e => by simp [alookup, e] at h
    have hrest : alookup k rest = none := by simpa [alookup, hk] using h
    by_cases hh : sess.hostSocketId = c
    · simpa [sweep, hh] using hrest
    · by_cases hm : c ∈ sess.listeners
      · simp [sweep, hh, hm, alookup, hk, sweep_fst_lookup_noneIdx hrest]
      · simp [sweep, hh, hm, alookup, hk, sweep_fst_lookup_noneIdx hrest]

theorem sweep_fst_memIdx {c : String} {now : Int} {si : Option SockInfo} :
    ∀ {l : List (String × Session)} {p : String × Session}, p ∈ (sweep c now si l).1 →
      ∃ q ∈ l, p.1 = q.1 ∧ p.2.hostSocketId = q.2.hostSocketId ∧
        ∀ x ∈ p.2.listeners, x ∈ q.2.listeners
  | [], p, h => by simp [sweep] at h
  | (k₀, sess) :: rest, p, h => by
    by_cases hh : sess.hostSocketId = c
    · have hp : p ∈ rest := by simpa [sweep, hh] using h
      exact ⟨p, List.mem_cons_of_mem _ hp, rfl, rfl, fun x hx => hx⟩
    · by_cases hm : c ∈ sess.listeners
      · have hp : p = (k₀, { sess with listeners := setDel c sess.listeners }) ∨
            p ∈ (sweep c now si rest).1 := by
          simpa [sweep, hh, hm] using h
        rcases hp with rfl | hp
        · exact ⟨(k₀, sess), by simp, rfl, rfl, fun x hx => (mem_setDel.mp hx).1⟩
        · obtain ⟨q, hq, h1, h2, h3⟩ := sweep_fst_memIdx hp
          exact ⟨q, List.mem_cons_of_mem _ hq, h1, h2, h3⟩
      · have hp : p = (k₀, sess) ∨ p ∈ (sweep c now si rest).1 := by
          simpa [sweep, hh, hm] using h
        rcases hp with rfl | hp
        · exact ⟨(k₀, sess), by simp, rfl, rfl, fun x hx => hx⟩
        · obtain ⟨q, hq, h1, h2, h3⟩ := sweep_fst_memIdx hp
          exact ⟨q, List.mem_cons_of_mem _ hq, h1, h2, h3⟩

theorem sweep_fst_no_hostIdx {c : String} {now : Int} {si : Option SockInfo} :
    ∀ {l : List (String × Session)}, (∀ p ∈ l, p.2.hostSocketId ≠ c) →
      (sweep c now si l).1 =
        l.map (fun p => (p.1, { p.2 with listeners := setDel c p.2.listeners }))
  | [], _ => rfl
  | (k₀, sess) :: rest, h => by
    have hh : sess.hostSocketId ≠ c := h (k₀, sess) (by simp)
    have hrest : ∀ p ∈ rest, p.2.hostSocketId ≠ c :=
      fun p hp => h p (List.mem_cons_of_mem _ hp)
    by_cases hm : c ∈ sess.listeners
    · simp [sweep, hh, hm, sweep_fst_no_hostIdx hrest]
    · simp [sweep, hh, hm, sweep_fst_no_hostIdx hrest, setDel_eq_self hm]

theorem sweep_eq_of_cleanIdx {c : String} {now : Int} {si : Option SockInfo} :
    ∀ {l : List (String × Session)},
      (∀ p ∈ l, p.2.hostSocketId ≠ c ∧ c ∉ p.2.listeners) →
      sweep c now si l = (l, [])
  | [], _ => rfl
  | (k₀, sess) :: rest, h => by
    obtain ⟨hh, hm⟩ := h (k₀, sess) (by simp)
    have hrest : ∀ p ∈ rest, p.2.hostSocketId ≠ c ∧ c ∉ p.2.listeners :=
      fun p hp => h p (List.mem_cons_of_mem _ hp)
    simp [sweep, hh, hm, sweep_eq_of_cleanIdx hrest]

theorem sweep_host_removedIdx {c : String} {now : Int} {si : Option SockInfo} {k : String}
    {sess : Session} :
    ∀ {l : List (String × Session)},
      alookup k l = some sess → sess.hostSocketId = c →
      (∀ p ∈ l, p.2.hostSocketId = c → p.1 = k) →
      (l.map Prod.fst).Nodup →
      alookup k (sweep c now si l).1 = none ∧
      ⟨Target.room ("stream:" ++ k), Ev.streamEnded "The host disconnected"⟩ ∈
        (sweep c now si l).2
  | [], h, _, _, _ => by simp [alookup] at h
  | (k₀, s₀) :: rest, h, hhost, honly, hnd => by
    rw [List.map_cons] at hnd
    have hndhead := (List.nodup_cons.mp hnd).1
    have hndtail := (List.nodup_cons.mp hnd).2
    by_cases hh : s₀.hostSocketId = c
    · have hk : k₀ = k := honly (k₀, s₀) (by simp) hh
      subst hk
      refine ⟨?_, by simp [sweep, hh]⟩
      simpa [sweep, hh] using alookup_eq_none_of_not_mem hndhead
    · have hk : k₀ ≠ k := by
        intro e
        subst e
        have hs : s₀ = sess := by simpa [alookup] using h
        exact hh (hs ▸ hhost)
      have hrest : alookup k rest = some sess := by simpa [alookup, hk] using h
      have honlyrest : ∀ p ∈ rest, p.2.hostSocketId = c → p.1 = k :=
        fun p hp => honly p (List.mem_cons_of_mem _ hp)
      obtain ⟨ih1, ih2⟩ :=
        @sweep_host_removedIdx c now si k sess rest hrest hhost honlyrest hndtail
      by_cases hm : c ∈ s₀.listeners
      · refine ⟨by simp [sweep, hh, hm, alookup, hk, ih1], ?_⟩
        have h2 : (sweep c now si ((k₀, s₀) :: rest)).2 =
            (⟨Target.room ("stream:" ++ k₀),
                Ev.streamListeners (setDel c s₀.listeners).length⟩ ::
              (if jsTruthy ((si.map SockInfo.listenerName).join) then
                [⟨Target.roomExcept ("stream:" ++ k₀) c,
                  Ev.chatMessage "system" none
                    (jsStr ((si.map SockInfo.listenerName).join) ++ " left the stream")
                    now none⟩]
               else [])) ++ (sweep c now si rest).2 := by
          simp [sweep, hh, hm]
        rw [h2]
        exact List.mem_append_right _ ih2
      · refine ⟨by simp [sweep, hh, hm, alookup, hk, ih1], ?_⟩
        have h2 : (sweep c now si ((k₀, s₀) :: rest)).2 = (sweep c now si rest).2 := by
          simp [sweep, hh, hm]
        rw [h2]
        exact ih2

theorem step_lookup_noneIdx {k : String} {s : State} {ta : TimedAction}
    (h : alookup k s.sessions = none) (hc : createsKeyB k ta = false) :
    alookup k (step s ta).sessions = none := by
  obtain ⟨c, now, a⟩ := ta
  cases a with
  | hostStart u song =>
    have hne : jsKey u ≠ k := by simpa [createsKeyB] using hc
    simpa [step, dispatch, alookup_aset_ne _ hne] using h
  | hostUpdate u song pos play =>
    by_cases hkey : jsKey u = k
    · simp [step, dispatch, hkey, h]
    · cases hsess : alookup (jsKey u) s.sessions with
      | none => simpa [step, dispatch, hsess] using h
      | some sess =>
        by_cases hhost : sess.hostSocketId = c
        · simpa [step, dispatch, hsess, hhost, alookup_aset_ne _ hkey] using h
        · simpa [step, dispatch, hsess, hhost] using h
  | hostEnd u =>
    cases hsess : alookup (jsKey u) s.sessions with
    | none => simpa [step, dispatch, hsess] using h
    | some sess =>
      by_cases hhost : sess.hostSocketId = c
      · simpa [step, dispatch, hsess, hhost] using alookup_aerase_none h
      · simpa [step, dispatch, hsess, hhost] using h
  | listenerJoin u nm =>
    by_cases hkey : jsKey u = k
    · simp [step, dispatch, hkey, h]
    · cases hsess : alookup (jsKey u) s.sessions with
      | none => simpa [step, dispatch, hsess] using h
      | some sess => simpa [step, dispatch, hsess, alookup_aset_ne _ hkey] using h
  | chatSend u msg sn =>
    cases hsess : alookup (jsKey u) s.sessions with
    | none => simpa [step, dispatch, hsess] using h
    | some sess => simpa [step, dispatch, hsess] using h
  | disconnect =>
    simpa [step, dispatch] using sweep_fst_lookup_noneIdx h

theorem run_lookup_noneIdx {k : String} :
    ∀ {tas : List TimedAction} {s : State},
      alookup k s.sessions = none →
      (∀ ta ∈ tas, createsKeyB k ta = false) →
      alookup k (run s tas).sessions = none
  | [], _, h, _ => h
  | ta :: rest, s, h, hc => by
    have h1 := step_lookup_noneIdx h (hc ta (by simp))
    simpa [run] using run_lookup_noneIdx h1 (fun ta2 h2 => hc ta2 (List.mem_cons_of_mem _ h2))

theorem step_hostNotListenerIdx {s : State} {ta : TimedAction}
    (h : HostNotListener s) (hsj : selfJoinB s ta = false) :
    HostNotListener (step s ta) := by
  obtain ⟨c, now, a⟩ := ta
  cases a with
  | hostStart u song =>
    intro p hp
    have hp2 : p ∈ aset (jsKey u) ⟨c, song, true, 0, now, []⟩ s.sessions := by
      simpa [step, dispatch] using hp
    rcases mem_aset hp2 with rfl | hp3
    · simp
    · exact h p hp3
  | hostUpdate u song pos play =>
    cases hsess : alookup (jsKey u) s.sessions with
    | none => simpa [step, dispatch, hsess] using h
    | some sess =>
      by_cases hhost : sess.hostSocketId = c
      · intro p hp
        have hp2 : p ∈ aset (jsKey u)
            { sess with
              song := if song.isSome then song else sess.song,
              isPlaying := play.getD sess.isPlaying,
              position := pos.getD sess.position,
              startedAt := if pos.isSome then now else sess.startedAt } s.sessions := by
          simpa [step, dispatch, hsess, hhost] using hp
        rcases mem_aset hp2 with rfl | hp3
        · simpa using h _ (alookup_mem hsess)
        · exact h p hp3
      · simpa [step, dispatch, hsess, hhost] using h
  | hostEnd u =>
    cases hsess : alookup (jsKey u) s.sessions with
    | none => simpa [step, dispatch, hsess] using h
    | some sess =>
      by_cases hhost : sess.hostSocketId = c
      · intro p hp
        have hp2 : p ∈ aerase (jsKey u) s.sessions := by
          simpa [step, dispatch, hsess, hhost] using hp
        exact h p (mem_aerase hp2)
      · simpa [step, dispatch, hsess, hhost] using h
  | listenerJoin u nm =>
    cases hsess : alookup (jsKey u) s.sessions with
    | none => simpa [step, dispatch, hsess] using h
    | some sess =>
      have hne : sess.hostSocketId ≠ c := by
        have := hsj
        simp [selfJoinB, hsess] at this
        simpa using this
      intro p hp
      have hp2 : p ∈ aset (jsKey u)
          { sess with listeners := setAdd c sess.listeners } s.sessions := by
        simpa [step, dispatch, hsess] using hp
      rcases mem_aset hp2 with rfl | hp3
      · intro hmem
        rcases mem_setAdd.mp hmem with h1 | h1
        · exact h _ (alookup_mem hsess) h1
        · exact hne h1
      · exact h p hp3
  | chatSend u msg sn =>
    cases hsess : alookup (jsKey u) s.sessions with
    | none => simpa [step, dispatch, hsess] using h
    | some sess => simpa [step, dispatch, hsess] using h
  | disconnect =>
    intro p hp
    have hp2 : p ∈ (sweep c now (alookup c s.socks) s.sessions).1 := by
      simpa [step, dispatch] using hp
    obtain ⟨q, hq, _, h2, h3⟩ := sweep_fst_memIdx hp2
    intro hmem
    exact h q hq (h3 _ (h2 ▸ hmem) |> fun hx => h2 ▸ hx)

theorem run_hostNotListenerIdx :
    ∀ {tas : List TimedAction} {s : State}, HostNotListener s →
      NoSelfJoinRun s tas = true → HostNotListener (run s tas)
  | [], _, h, _ => h
  | ta :: rest, s, h, hn => by
    rw [NoSelfJoinRun, Bool.and_eq_true, Bool.not_eq_true'] at hn
    simpa [run] using run_hostNotListenerIdx (step_hostNotListenerIdx h hn.1) hn.2

end IndexJs

/-! ### Claims -/

/-- C1 counterexample: in the `part_001` revision a `host:update` whose
sender is not the recorded host emits nothing at all — no `stream:error`
with code `NOT_HOST` is sent to the sender, contrary to the claim (the
session fields are indeed unchanged: the state is returned untouched). -/
theorem C1_counterexample :
    Part001.dispatch "c2" 5
      (Part001.run Part001.initState [⟨"c1", 0, Action.hostStart (some "a") (some "X")⟩])
      (Action.hostUpdate (some "a") (some "Y") (some 3) (some false)) =
    some (Part001.run Part001.initState [⟨"c1", 0, Action.hostStart (some "a") (some "X")⟩],
      []) := by
  with_unfolding_all decide

/-- C1 amended: a `host:update` whose sender is not the recorded host
leaves the entire state — hence `track`, `isPlaying` and `positionBaseline`
— unchanged in both revisions; the `index.js` revision answers with
`stream:error` code `NOT_HOST` to the sender, while the `part_001` revision
silently ignores the action and emits no error at all. -/
theorem C1_amended :
    (∀ (s : Part001.State) (c : String) (now : Int) (u : String) (sess : Part001.Session)
        (song : Option String) (pos : Option Rat) (play : Option Bool),
      alookup (jsToLower u) s.activeSessions = some sess →
      sess.hostSocketId ≠ c →
      Part001.dispatch c now s (Action.hostUpdate (some u) song pos play) = some (s, [])) ∧
    (∀ (s : IndexJs.State) (c : String) (now : Int) (u : Option String)
        (sess : IndexJs.Session) (song : Option String) (pos : Option Rat)
        (play : Option Bool),
      alookup (jsKey u) s.sessions = some sess →
      sess.hostSocketId ≠ c →
      IndexJs.dispatch c now s (Action.hostUpdate u song pos play) =
        (s, [⟨Target.sender, Ev.streamError "Not authorized" "NOT_HOST"⟩])) := by
  constructor
  · intro s c now u sess song pos play hsess hne
    simp [Part001.dispatch, hsess, hne]
  · intro s c now u sess song pos play hsess hne
    simp [IndexJs.dispatch, hsess, hne]

/-- C1 witness: concrete instantiation of the amended claim. -/
theorem C1_witness :
    Part001.dispatch "c2" 5
        ⟨[("a", ⟨"c1", "a", some "X", 0, true, 0, 0, []⟩)], [], []⟩
        (Action.hostUpdate (some "a") none none none) =
      some (⟨[("a", ⟨"c1", "a", some "X", 0, true, 0, 0, []⟩)], [], []⟩, []) ∧
    IndexJs.dispatch "c2" 5 ⟨[("a", ⟨"c1", some "X", true, 0, 0, []⟩)], [], []⟩
        (Action.hostUpdate (some "a") none none none) =
      (⟨[("a", ⟨"c1", some "X", true, 0, 0, []⟩)], [], []⟩,
       [⟨Target.sender, Ev.streamError "Not authorized" "NOT_HOST"⟩]) :=
  ⟨C1_amended.1 ⟨[("a", ⟨"c1", "a", some "X", 0, true, 0, 0, []⟩)], [], []⟩ "c2" 5 "a"
      ⟨"c1", "a", some "X", 0, true, 0, 0, []⟩ none none none
      (by with_unfolding_all decide) (by decide),
   C1_amended.2 ⟨[("a", ⟨"c1", some "X", true, 0, 0, []⟩)], [], []⟩ "c2" 5 (some "a")
      ⟨"c1", some "X", true, 0, 0, []⟩ none none none
      (by with_unfolding_all decide) (by decide)⟩

/-- C2 counterexample: in the `part_001` revision, after `c2` takes over
the session of identity `a`, a `host:end` from the replaced host `c1` is
not ignored: the handler has no authorization check, removes the session
and broadcasts `stream:ended`, contrary to the claim. -/
theorem C2_counterexample :
    alookup "a" (Part001.run Part001.initState
      [⟨"c1", 0, Action.hostStart (some "a") (some "X")⟩,
       ⟨"c2", 1, Action.hostStart (some "a") (some "Y")⟩]).activeSessions =
      some ⟨"c2", "a", some "Y", 0, true, 1, 1, []⟩ ∧
    Part001.dispatch "c1" 2
      (Part001.run Part001.initState
        [⟨"c1", 0, Action.hostStart (some "a") (some "X")⟩,
         ⟨"c2", 1, Action.hostStart (some "a") (some "Y")⟩])
      (Action.hostEnd (some "a")) =
      some (⟨[], [("live:a", ["c1", "c2"])], []⟩,
        [⟨Target.room "live:a", Ev.streamEnded "Host ended the session"⟩]) := by
  constructor <;> with_unfolding_all decide

/-- C2 amended: in both revisions a second `host:start` for the same
identity unconditionally replaces the Session, and the replaced host
connection can no longer mutate it through `host:update`; in the
`index.js` revision its `host:end` is silently ignored and the session is
kept, but in the `part_001` revision `host:end` has no authorization check
at all — any sender removes the session and broadcasts `stream:ended`. -/
theorem C2_amended :
    (∀ (s : Part001.State) (c2 : String) (now : Int) (u : String) (song : Option String),
      alookup (jsToLower u)
          (Part001.step s ⟨c2, now, Action.hostStart (some u) song⟩).activeSessions =
        some ⟨c2, u, song, 0, true, now, now, []⟩) ∧
    (∀ (s : IndexJs.State) (c2 : String) (now : Int) (u : Option String)
        (song : Option String),
      alookup (jsKey u) (IndexJs.step s ⟨c2, now, Action.hostStart u song⟩).sessions =
        some ⟨c2, song, true, 0, now, []⟩) ∧
    (∀ (s : Part001.State) (c1 : String) (now : Int) (u : String)
        (sess : Part001.Session) (song : Option String) (pos : Option Rat)
        (play : Option Bool),
      alookup (jsToLower u) s.activeSessions = some sess → sess.hostSocketId ≠ c1 →
      (Part001.dispatch c1 now s (Action.hostUpdate (some u) song pos play)).map Prod.fst =
        some s) ∧
    (∀ (s : IndexJs.State) (c1 : String) (now : Int) (u : Option String)
        (sess : IndexJs.Session) (song : Option String) (pos : Option Rat)
        (play : Option Bool),
      alookup (jsKey u) s.sessions = some sess → sess.hostSocketId ≠ c1 →
      (IndexJs.dispatch c1 now s (Action.hostUpdate u song pos play)).1 = s) ∧
    (∀ (s : IndexJs.State) (c1 : String) (now : Int) (u : Option String)
        (sess : IndexJs.Session),
      alookup (jsKey u) s.sessions = some sess → sess.hostSocketId ≠ c1 →
      IndexJs.dispatch c1 now s (Action.hostEnd u) = (s, [])) ∧
    (∀ (s : Part001.State) (c : String) (now : Int) (u : String),
      Part001.dispatch c now s (Action.hostEnd (some u)) =
        some ({ s with activeSessions := aerase (jsToLower u) s.activeSessions },
          [⟨Target.room ("live:" ++ jsToLower u), Ev.streamEnded "Host ended the session"⟩])) := by
  refine ⟨?_, ?_, ?_, ?_, ?_, ?_⟩
  · intro s c2 now u song
    simp [Part001.step, Part001.dispatch, alookup_aset_self]
  · intro s c2 now u song
    simp [IndexJs.step, IndexJs.dispatch, alookup_aset_self]
  · intro s c1 now u sess song pos play hsess hne
    simp [Part001.dispatch, hsess, hne]
  · intro s c1 now u sess song pos play hsess hne
    simp [IndexJs.dispatch, hsess, hne]
  · intro s c1 now u sess hsess hne
    simp [IndexJs.dispatch, hsess, hne]
  · intro s c now u
    simp [Part001.dispatch]

/-- C2 witness: concrete instantiation of the amended claim. -/
theorem C2_witness :
    alookup "a" (Part001.step ⟨[("a", ⟨"c1", "a", some "X", 0, true, 0, 0, []⟩)], [], []⟩
        ⟨"c2", 7, Action.hostStart (some "a") (some "Y")⟩).activeSessions =
      some ⟨"c2", "a", some "Y", 0, true, 7, 7, []⟩ ∧
    alookup "a" (IndexJs.step ⟨[("a", ⟨"c1", some "X", true, 0, 0, []⟩)], [], []⟩
        ⟨"c2", 7, Action.hostStart (some "a") (some "Y")⟩).sessions =
      some ⟨"c2", some "Y", true, 0, 7, []⟩ ∧
    (Part001.dispatch "c1" 8 ⟨[("a", ⟨"c2", "a", some "Y", 0, true, 7, 7, []⟩)], [], []⟩
        (Action.hostUpdate (some "a") none none none)).map Prod.fst =
      some ⟨[("a", ⟨"c2", "a", some "Y", 0, true, 7, 7, []⟩)], [], []⟩ ∧
    (IndexJs.dispatch "c1" 8 ⟨[("a", ⟨"c2", some "Y", true, 0, 7, []⟩)], [], []⟩
        (Action.hostUpdate (some "a") none none none)).1 =
      ⟨[("a", ⟨"c2", some "Y", true, 0, 7, []⟩)], [], []⟩ ∧
    IndexJs.dispatch "c1" 8 ⟨[("a", ⟨"c2", some "Y", true, 0, 7, []⟩)], [], []⟩
        (Action.hostEnd (some "a")) =
      (⟨[("a", ⟨"c2", some "Y", true, 0, 7, []⟩)], [], []⟩, []) ∧
    Part001.dispatch "c1" 8 ⟨[("a", ⟨"c2", "a", some "Y", 0, true, 7, 7, []⟩)], [], []⟩
        (Action.hostEnd (some "a")) =
      some (⟨[], [], []⟩,
        [⟨Target.room "live:a", Ev.streamEnded "Host ended the session"⟩]) :=
  ⟨C2_amended.1 _ "c2" 7 "a" (some "Y"),
   C2_amended.2.1 _ "c2" 7 (some "a") (some "Y"),
   C2_amended.2.2.1 _ "c1" 8 "a" ⟨"c2", "a", some "Y", 0, true, 7, 7, []⟩ none none none
     (by with_unfolding_all decide) (by decide),
   C2_amended.2.2.2.1 _ "c1" 8 (some "a") ⟨"c2", some "Y", true, 0, 7, []⟩ none none none
     (by with_unfolding_all decide) (by decide),
   C2_amended.2.2.2.2.1 _ "c1" 8 (some "a") ⟨"c2", some "Y", true, 0, 7, []⟩
     (by with_unfolding_all decide) (by decide),
   C2_amended.2.2.2.2.2 _ "c1" 8 "a"⟩

/-- C3 counterexample: the position sent to a joining listener is not
floored at zero, and in `index.js` it is not even a function of only
`(positionBaseline, isPlaying, lastUpdateTimestamp, now)`.  In `part_001`,
after the host resets the baseline to `-5` while playing, a listener
joining at the same instant is sent position `-5`, whereas the
spec-modelled Position Clock (`specPositionClock`) would return `0`.  In
`index.js`, a playing session whose stored track is `undefined` is not
extrapolated at all: one second after the start the listener is sent `0`
where the claimed formula gives `1`. -/
theorem C3_counterexample :
    (Part001.dispatch "c2" 0
      (Part001.run Part001.initState
        [⟨"c1", 0, Action.hostStart (some "a") (some "X")⟩,
         ⟨"c1", 0, Action.hostUpdate (some "a") none (some (-5)) none⟩])
      (Action.listenerJoin (some "a") (some "bob"))).map
        (fun r => firstStatePosition r.2) = some (some (-5)) ∧
    specPositionClock (-5) true 0 0 = 0 ∧ ((-5 : Rat) ≠ 0) ∧
    firstStatePosition (IndexJs.dispatch "c2" 1000
      (IndexJs.run IndexJs.initState [⟨"c1", 0, Action.hostStart (some "a") none⟩])
      (Action.listenerJoin (some "a") (some "bob"))).2 = some 0 ∧
    specPositionClock 0 true 0 1000 = 1 ∧ ((0 : Rat) ≠ 1) := by
  refine ⟨by with_unfolding_all decide, by with_unfolding_all decide,
    by with_unfolding_all decide, by with_unfolding_all decide,
    by with_unfolding_all decide, by with_unfolding_all decide⟩

/-- C3 amended: the position sent to a joining listener is a pure function
of the stored session fields and `now`: in `part_001` it is
`positionBaseline` when not playing and `positionBaseline + (now −
lastUpdateTimestamp) / 1000` when playing, with no flooring at zero; in
`index.js` the same except that the elapsed term is added only when the
stored track is also truthy (and the stored timestamp is `startedAt`). -/
theorem C3_amended :
    (∀ (s : Part001.State) (c : String) (now : Int) (u : String) (nm : Option String)
        (sess : Part001.Session),
      alookup (jsToLower u) s.activeSessions = some sess →
      (Part001.dispatch c now s (Action.listenerJoin (some u) nm)).map
          (fun r => firstStatePosition r.2) =
        some (some (Part001.positionClock sess.position sess.isPlaying sess.lastUpdate now))) ∧
    (∀ (s : IndexJs.State) (c : String) (now : Int) (u : Option String) (nm : Option String)
        (sess : IndexJs.Session),
      alookup (jsKey u) s.sessions = some sess →
      firstStatePosition (IndexJs.dispatch c now s (Action.listenerJoin u nm)).2 =
        some (IndexJs.positionClock sess.position sess.isPlaying sess.song
          sess.startedAt now)) := by
  constructor
  · intro s c now u nm sess hsess
    simp [Part001.dispatch, hsess, firstStatePosition, Part001.positionClock]
  · intro s c now u nm sess hsess
    simp [IndexJs.dispatch, hsess, firstStatePosition, IndexJs.positionClock]

set_option maxRecDepth 4000 in
/-- C3 witness: concrete instantiation of the amended claim. -/
theorem C3_witness :
    (Part001.dispatch "c2" 2000
      ⟨[("a", ⟨"c1", "a", some "X", 7, true, 0, 1000, []⟩)], [], []⟩
      (Action.listenerJoin (some "a") (some "bob"))).map
        (fun r => firstStatePosition r.2) =
      some (some (Part001.positionClock 7 true 1000 2000)) ∧
    firstStatePosition (IndexJs.dispatch "c2" 2000
      ⟨[("a", ⟨"c1", some "X", true, 7, 1000, []⟩)], [], []⟩
      (Action.listenerJoin (some "a") (some "bob"))).2 =
      some (IndexJs.positionClock 7 true (some "X") 1000 2000) :=
  ⟨C3_amended.1 ⟨[("a", ⟨"c1", "a", some "X", 7, true, 0, 1000, []⟩)], [], []⟩ "c2" 2000 "a"
      (some "bob") ⟨"c1", "a", some "X", 7, true, 0, 1000, []⟩ (by with_unfolding_all decide),
   C3_amended.2 ⟨[("a", ⟨"c1", some "X", true, 7, 1000, []⟩)], [], []⟩ "c2" 2000 (some "a")
      (some "bob") ⟨"c1", some "X", true, 7, 1000, []⟩ (by with_unfolding_all decide)⟩

/-- C4 counterexample: the timestamp is not reset if and only if
`isPlaying`, `positionBaseline` or `track` changed.  In `index.js` an
authorized update that flips `isPlaying` from `true` to `false` leaves
`startedAt` untouched; in `part_001` an authorized update that provides no
field at all still resets `lastUpdate` to the current time. -/
theorem C4_counterexample :
    alookup "a" (IndexJs.dispatch "c1" 100
      (IndexJs.run IndexJs.initState [⟨"c1", 0, Action.hostStart (some "a") (some "X")⟩])
      (Action.hostUpdate (some "a") none none (some false))).1.sessions =
      some ⟨"c1", some "X", false, 0, 0, []⟩ ∧
    (Part001.dispatch "c1" 50
      (Part001.run Part001.initState [⟨"c1", 0, Action.hostStart (some "a") (some "X")⟩])
      (Action.hostUpdate (some "a") none none none)).map
        (fun r => alookup "a" r.1.activeSessions) =
      some (some ⟨"c1", "a", some "X", 0, true, 0, 50, []⟩) := by
  constructor <;> with_unfolding_all decide

/-- C4 amended: an authorized `host:update` applies exactly the provided
payload fields (in `part_001` a falsy `track` value is treated as absent)
and leaves every other session field unchanged; `part_001` resets
`lastUpdate` on every authorized update regardless of changes, and
`index.js` resets `startedAt` exactly when `position` is provided. -/
theorem C4_amended :
    (∀ (s : Part001.State) (c : String) (now : Int) (u : String)
        (sess : Part001.Session) (song : Option String) (pos : Option Rat)
        (play : Option Bool),
      alookup (jsToLower u) s.activeSessions = some sess →
      sess.hostSocketId = c →
      Part001.dispatch c now s (Action.hostUpdate (some u) song pos play) =
        some (⟨aset (jsToLower u)
            ⟨sess.hostSocketId, sess.username,
              if jsTruthy song then song else sess.song,
              pos.getD sess.position, play.getD sess.isPlaying,
              sess.startedAt, now, sess.listeners⟩ s.activeSessions,
            s.rooms, s.socks⟩,
          [⟨Target.roomExcept ("live:" ++ jsToLower u) c,
            Ev.streamUpdate (if jsTruthy song then song else sess.song)
              (pos.getD sess.position) (play.getD sess.isPlaying) (some now)⟩])) ∧
    (∀ (s : IndexJs.State) (c : String) (now : Int) (u : Option String)
        (sess : IndexJs.Session) (song : Option String) (pos : Option Rat)
        (play : Option Bool),
      alookup (jsKey u) s.sessions = some sess →
      sess.hostSocketId = c →
      IndexJs.dispatch c now s (Action.hostUpdate u song pos play) =
        (⟨aset (jsKey u)
            ⟨sess.hostSocketId,
              if song.isSome then song else sess.song,
              play.getD sess.isPlaying, pos.getD sess.position,
              if pos.isSome then now else sess.startedAt,
              sess.listeners⟩ s.sessions,
            s.rooms, s.socks⟩,
          [⟨Target.roomExcept ("stream:" ++ jsKey u) c,
            Ev.streamUpdate (if song.isSome then song else sess.song)
              (pos.getD sess.position) (play.getD sess.isPlaying) none⟩])) := by
  constructor
  · intro s c now u sess song pos play hsess hhost
    simp [Part001.dispatch, hsess, hhost]
  · intro s c now u sess song pos play hsess hhost
    simp [IndexJs.dispatch, hsess, hhost]

/-- C4 witness: concrete instantiation of the amended claim. -/
theorem C4_witness :
    Part001.dispatch "c1" 50 ⟨[("a", ⟨"c1", "a", some "X", 0, true, 0, 0, []⟩)], [], []⟩
        (Action.hostUpdate (some "a") none (some 9) none) =
      some (⟨[("a", ⟨"c1", "a", some "X", 9, true, 0, 50, []⟩)], [], []⟩,
        [⟨Target.roomExcept "live:a" "c1", Ev.streamUpdate (some "X") 9 true (some 50)⟩]) ∧
    IndexJs.dispatch "c1" 50 ⟨[("a", ⟨"c1", some "X", true, 0, 0, []⟩)], [], []⟩
        (Action.hostUpdate (some "a") none none (some false)) =
      (⟨[("a", ⟨"c1", some "X", false, 0, 0, []⟩)], [], []⟩,
        [⟨Target.roomExcept "stream:a" "c1", Ev.streamUpdate (some "X") 0 false none⟩]) :=
  ⟨C4_amended.1 ⟨[("a", ⟨"c1", "a", some "X", 0, true, 0, 0, []⟩)], [], []⟩ "c1" 50 "a"
      ⟨"c1", "a", some "X", 0, true, 0, 0, []⟩ none (some 9) none
      (by with_unfolding_all decide) (by decide),
   C4_amended.2 ⟨[("a", ⟨"c1", some "X", true, 0, 0, []⟩)], [], []⟩ "c1" 50 (some "a")
      ⟨"c1", some "X", true, 0, 0, []⟩ none none (some false)
      (by with_unfolding_all decide) (by decide)⟩

set_option maxRecDepth 10000 in
/-- C5 counterexample: when one connection hosts two sessions, the
disconnect sweep returns after removing the first one, so the disconnect
of the host connection of session `b` does not remove that session, and a
subsequent `listener:join` for `b` succeeds (it is answered with
`stream:state`, not `NOT_FOUND`). -/
theorem C5_counterexample :
    alookup "b" (Part001.run Part001.initState
      [⟨"c1", 0, Action.hostStart (some "a") (some "X")⟩,
       ⟨"c1", 0, Action.hostStart (some "b") (some "Y")⟩,
       ⟨"c1", 1, Action.disconnect⟩]).activeSessions =
      some ⟨"c1", "b", some "Y", 0, true, 0, 0, []⟩ ∧
    (Part001.dispatch "c2" 2
      (Part001.run Part001.initState
        [⟨"c1", 0, Action.hostStart (some "a") (some "X")⟩,
         ⟨"c1", 0, Action.hostStart (some "b") (some "Y")⟩,
         ⟨"c1", 1, Action.disconnect⟩])
      (Action.listenerJoin (some "b") (some "bob"))).map
        (fun r => firstStatePosition r.2) = some (some (1 / 500)) := by
  constructor <;> with_unfolding_all decide

/-- C5 amended: when the disconnecting connection hosts exactly one
session (the design intent: a connection is host of at most one session),
processing its transport disconnect removes that session, broadcasts
`stream:ended` to its room, and the key stays absent under any further
trace that contains no `host:start` for it; a `listener:join` for an
absent key is answered `stream:error` with code `NOT_FOUND` and mutates
nothing.  This holds in both revisions. -/
theorem C5_amended :
    (∀ (s : Part001.State) (c : String) (now : Int) (k : String) (sess : Part001.Session),
      alookup k s.activeSessions = some sess →
      sess.hostSocketId = c →
      (∀ p ∈ s.activeSessions, p.2.hostSocketId = c → p.1 = k) →
      (s.activeSessions.map Prod.fst).Nodup →
      alookup k (Part001.step s ⟨c, now, Action.disconnect⟩).activeSessions = none ∧
      ⟨Target.room ("live:" ++ k), Ev.streamEnded "Host disconnected"⟩ ∈
        Part001.emits c now s Action.disconnect ∧
      ∀ tas : List TimedAction, (∀ ta ∈ tas, Part001.createsKeyB k ta = false) →
        alookup k
          (Part001.run (Part001.step s ⟨c, now, Action.disconnect⟩) tas).activeSessions =
          none) ∧
    (∀ (s : Part001.State) (c : String) (now : Int) (u : String) (nm : Option String),
      alookup (jsToLower u) s.activeSessions = none →
      Part001.dispatch c now s (Action.listenerJoin (some u) nm) =
        some (s, [⟨Target.sender, Ev.streamError "Session not found" "NOT_FOUND"⟩])) ∧
    (∀ (s : IndexJs.State) (c : String) (now : Int) (k : String) (sess : IndexJs.Session),
      alookup k s.sessions = some sess →
      sess.hostSocketId = c →
      (∀ p ∈ s.sessions, p.2.hostSocketId = c → p.1 = k) →
      (s.sessions.map Prod.fst).Nodup →
      alookup k (IndexJs.step s ⟨c, now, Action.disconnect⟩).sessions = none ∧
      ⟨Target.room ("stream:" ++ k), Ev.streamEnded "The host disconnected"⟩ ∈
        IndexJs.emits c now s Action.disconnect ∧
      ∀ tas : List TimedAction, (∀ ta ∈ tas, IndexJs.createsKeyB k ta = false) →
        alookup k (IndexJs.run (IndexJs.step s ⟨c, now, Action.disconnect⟩) tas).sessions =
          none) ∧
    (∀ (s : IndexJs.State) (c : String) (now : Int) (u : Option String) (nm : Option String),
      alookup (jsKey u) s.sessions = none →
      IndexJs.dispatch c now s (Action.listenerJoin u nm) =
        (s, [⟨Target.sender, Ev.streamError "Stream not found or offline" "NOT_FOUND"⟩])) := by
  refine ⟨?_, ?_, ?_, ?_⟩
  · intro s c now k sess hk hhost honly hnd
    obtain ⟨h1, h2⟩ :=
      @Part001.sweep_host_removed c now (alookup c s.socks) k sess s.activeSessions
        hk hhost honly hnd
    refine ⟨by simpa [Part001.step, Part001.dispatch] using h1,
      by simpa [Part001.emits, Part001.dispatch] using h2, ?_⟩
    intro tas htas
    exact Part001.run_lookup_none (by simpa [Part001.step, Part001.dispatch] using h1) htas
  · intro s c now u nm hnone
    simp [Part001.dispatch, hnone]
  · intro s c now k sess hk hhost honly hnd
    obtain ⟨h1, h2⟩ :=
      @IndexJs.sweep_host_removedIdx c now (alookup c s.socks) k sess s.sessions
        hk hhost honly hnd
    refine ⟨by simpa [IndexJs.step, IndexJs.dispatch] using h1,
      by simpa [IndexJs.emits, IndexJs.dispatch] using h2, ?_⟩
    intro tas htas
    exact IndexJs.run_lookup_noneIdx (by simpa [IndexJs.step, IndexJs.dispatch] using h1) htas
  · intro s c now u nm hnone
    simp [IndexJs.dispatch, hnone]

/-- C5 witness: concrete instantiation of the amended claim. -/
theorem C5_witness :
    alookup "a" (Part001.step
      ⟨[("a", ⟨"c1", "a", some "X", 0, true, 0, 0, ["c2"]⟩)], [("live:a", ["c1", "c2"])], []⟩
      ⟨"c1", 9, Action.disconnect⟩).activeSessions = none ∧
    ⟨Target.room "live:a", Ev.streamEnded "Host disconnected"⟩ ∈
      Part001.emits "c1" 9
        ⟨[("a", ⟨"c1", "a", some "X", 0, true, 0, 0, ["c2"]⟩)], [("live:a", ["c1", "c2"])], []⟩
        Action.disconnect ∧
    alookup "a" (Part001.run (Part001.step
      ⟨[("a", ⟨"c1", "a", some "X", 0, true, 0, 0, ["c2"]⟩)], [("live:a", ["c1", "c2"])], []⟩
      ⟨"c1", 9, Action.disconnect⟩)
      [⟨"c3", 10, Action.chatSend (some "a") "hi" "carol"⟩,
       ⟨"c3", 11, Action.listenerJoin (some "a") (some "carol")⟩]).activeSessions = none ∧
    Part001.dispatch "c3" 11
      ⟨[], [], []⟩ (Action.listenerJoin (some "a") (some "carol")) =
      some (⟨[], [], []⟩,
        [⟨Target.sender, Ev.streamError "Session not found" "NOT_FOUND"⟩]) ∧
    alookup "a" (IndexJs.step
      ⟨[("a", ⟨"c1", some "X", true, 0, 0, []⟩)], [("stream:a", ["c1"])], []⟩
      ⟨"c1", 9, Action.disconnect⟩).sessions = none ∧
    IndexJs.dispatch "c3" 11 ⟨[], [], []⟩ (Action.listenerJoin (some "a") (some "carol")) =
      (⟨[], [], []⟩,
        [⟨Target.sender, Ev.streamError "Stream not found or offline" "NOT_FOUND"⟩]) := by
  have h1 := C5_amended.1
    ⟨[("a", ⟨"c1", "a", some "X", 0, true, 0, 0, ["c2"]⟩)], [("live:a", ["c1", "c2"])], []⟩
    "c1" 9 "a" ⟨"c1", "a", some "X", 0, true, 0, 0, ["c2"]⟩
    (by with_unfolding_all decide) (by decide) (by with_unfolding_all decide)
    (by with_unfolding_all decide)
  have h3 := C5_amended.2.2.1
    ⟨[("a", ⟨"c1", some "X", true, 0, 0, []⟩)], [("stream:a", ["c1"])], []⟩
    "c1" 9 "a" ⟨"c1", some "X", true, 0, 0, []⟩
    (by with_unfolding_all decide) (by decide) (by with_unfolding_all decide)
    (by with_unfolding_all decide)
  refine ⟨h1.1, h1.2.1, ?_, ?_, h3.1, ?_⟩
  · exact h1.2.2
      [⟨"c3", 10, Action.chatSend (some "a") "hi" "carol"⟩,
       ⟨"c3", 11, Action.listenerJoin (some "a") (some "carol")⟩]
      (by with_unfolding_all decide)
  · exact C5_amended.2.1 ⟨[], [], []⟩ "c3" 11 "a" (some "carol") (by decide)
  · exact C5_amended.2.2.2 ⟨[], [], []⟩ "c3" 11 (some "a") (some "carol") (by decide)

/-- C6 counterexample: no handler validates a missing `identity`.  In the
`part_001` revision `host:start` without a username throws
(`username.toLowerCase()` on `undefined`, modelled as the `none` dispatch
result) instead of answering a `ValidationError`; in the `index.js`
revision the same action proceeds and mutates the Session Registry under
the property key `"undefined"`. -/
theorem C6_counterexample :
    Part001.dispatch "c1" 0 Part001.initState (Action.hostStart none (some "X")) = none ∧
    alookup "undefined"
      (IndexJs.step IndexJs.initState ⟨"c1", 0, Action.hostStart none (some "X")⟩).sessions =
      some ⟨"c1", some "X", true, 0, 0, []⟩ := by
  constructor <;> with_unfolding_all decide

/-- C6 amended: there is no payload validation at all.  In `part_001`
every action kind that reads `identity` throws on a missing username
(before any mutation or emit, so the state is untouched but no
`ValidationError` response exists either); in `index.js` the missing
username is coerced to the key `"undefined"` and the handlers proceed
normally — `host:start` emits `host:started` and installs a session under
that key. -/
theorem C6_amended :
    (∀ (s : Part001.State) (c : String) (now : Int) (song : Option String)
        (pos : Option Rat) (play : Option Bool) (nm : Option String) (msg sn : String),
      Part001.dispatch c now s (Action.hostStart none song) = none ∧
      Part001.dispatch c now s (Action.hostUpdate none song pos play) = none ∧
      Part001.dispatch c now s (Action.hostEnd none) = none ∧
      Part001.dispatch c now s (Action.listenerJoin none nm) = none ∧
      Part001.dispatch c now s (Action.chatSend none msg sn) = none) ∧
    (∀ (s : IndexJs.State) (c : String) (now : Int) (song : Option String),
      (IndexJs.dispatch c now s (Action.hostStart none song)).2 =
        [⟨Target.sender, Ev.hostStarted (some 0)⟩] ∧
      alookup "undefined"
        (IndexJs.step s ⟨c, now, Action.hostStart none song⟩).sessions =
        some ⟨c, song, true, 0, now, []⟩) := by
  constructor
  · intro s c now song pos play nm msg sn
    refine ⟨rfl, rfl, rfl, rfl, rfl⟩
  · intro s c now song
    constructor
    · simp [IndexJs.dispatch]
    · simpa [IndexJs.step, IndexJs.dispatch, jsKey] using
        alookup_aset_self "undefined" (⟨c, song, true, 0, now, []⟩ : IndexJs.Session)
          s.sessions

/-- C7 counterexample: the `index.js` revision keys sessions by the raw
username, not a case-normalized one: after `host:start` for `Alice`, a
`listener:join` for `alice` does not target that session — it is answered
`NOT_FOUND`. -/
theorem C7_counterexample :
    IndexJs.dispatch "c2" 1
      (IndexJs.run IndexJs.initState [⟨"c1", 0, Action.hostStart (some "Alice") (some "X")⟩])
      (Action.listenerJoin (some "alice") (some "bob")) =
      (IndexJs.run IndexJs.initState [⟨"c1", 0, Action.hostStart (some "Alice") (some "X")⟩],
       [⟨Target.sender, Ev.streamError "Stream not found or offline" "NOT_FOUND"⟩]) := by
  with_unfolding_all decide

/-- C7 amended: only the `part_001` revision normalizes the registry key
case-insensitively: usernames with the same lowercasing are fully
interchangeable in `host:update`, `host:end`, `listener:join` and
`chat:send`, and a `host:start` stores the session under the lowercased
key, where any case variant of the name retrieves it.  The `index.js`
revision uses the raw username as the key: `host:start` for one username
leaves the entry of every other key — case variants included — untouched. -/
theorem C7_amended :
    (∀ (u v : String), jsToLower u = jsToLower v →
      (∀ (s : Part001.State) (c : String) (now : Int) (song : Option String)
          (pos : Option Rat) (play : Option Bool),
        Part001.dispatch c now s (Action.hostUpdate (some u) song pos play) =
          Part001.dispatch c now s (Action.hostUpdate (some v) song pos play)) ∧
      (∀ (s : Part001.State) (c : String) (now : Int),
        Part001.dispatch c now s (Action.hostEnd (some u)) =
          Part001.dispatch c now s (Action.hostEnd (some v))) ∧
      (∀ (s : Part001.State) (c : String) (now : Int) (nm : Option String),
        Part001.dispatch c now s (Action.listenerJoin (some u) nm) =
          Part001.dispatch c now s (Action.listenerJoin (some v) nm)) ∧
      (∀ (s : Part001.State) (c : String) (now : Int) (msg sn : String),
        Part001.dispatch c now s (Action.chatSend (some u) msg sn) =
          Part001.dispatch c now s (Action.chatSend (some v) msg sn)) ∧
      (∀ (s : Part001.State) (c : String) (now : Int) (song : Option String),
        alookup (jsToLower v)
            (Part001.step s ⟨c, now, Action.hostStart (some u) song⟩).activeSessions =
          some ⟨c, u, song, 0, true, now, now, []⟩)) ∧
    (∀ (u v : String), u ≠ v →
      ∀ (s : IndexJs.State) (c : String) (now : Int) (song : Option String),
        alookup v (IndexJs.step s ⟨c, now, Action.hostStart (some u) song⟩).sessions =
          alookup v s.sessions) := by
  constructor
  · intro u v h
    refine ⟨?_, ?_, ?_, ?_, ?_⟩
    · intro s c now song pos play
      simp only [Part001.dispatch]
      rw [h]
    · intro s c now
      simp only [Part001.dispatch]
      rw [h]
    · intro s c now nm
      simp only [Part001.dispatch]
      rw [h]
    · intro s c now msg sn
      simp only [Part001.dispatch]
      rw [h]
    · intro s c now song
      simp only [Part001.step, Part001.dispatch]
      rw [← h]
      exact alookup_aset_self _ _ _
  · intro u v hne s c now song
    have : (u : String) ≠ v := hne
    simpa [IndexJs.step, IndexJs.dispatch, jsKey] using
      alookup_aset_ne (⟨c, song, true, 0, now, []⟩ : IndexJs.Session) this s.sessions

/-- C7 witness: concrete instantiation of the amended claim. -/
theorem C7_witness :
    Part001.dispatch "c2" 3 ⟨[("alice", ⟨"c1", "Alice", some "X", 0, true, 0, 0, []⟩)], [], []⟩
        (Action.hostEnd (some "Alice")) =
      Part001.dispatch "c2" 3 ⟨[("alice", ⟨"c1", "Alice", some "X", 0, true, 0, 0, []⟩)], [], []⟩
        (Action.hostEnd (some "alice")) ∧
    alookup "alice" (Part001.step ⟨[], [], []⟩
        ⟨"c1", 3, Action.hostStart (some "Alice") (some "X")⟩).activeSessions =
      some ⟨"c1", "Alice", some "X", 0, true, 3, 3, []⟩ ∧
    alookup "alice" (IndexJs.step ⟨[], [], []⟩
        ⟨"c1", 3, Action.hostStart (some "Alice") (some "X")⟩).sessions =
      alookup "alice" ([] : List (String × IndexJs.Session)) :=
  ⟨(C7_amended.1 "Alice" "alice" (by with_unfolding_all decide)).2.1
      ⟨[("alice", ⟨"c1", "Alice", some "X", 0, true, 0, 0, []⟩)], [], []⟩ "c2" 3,
   by
    have := (C7_amended.1 "Alice" "alice" (by with_unfolding_all decide)).2.2.2.2
      ⟨[], [], []⟩ "c1" 3 (some "X")
    simpa using this,
   C7_amended.2 "Alice" "alice" (by decide) ⟨[], [], []⟩ "c1" 3 (some "X")⟩

/-- C8: removing a listener connection on disconnect is idempotent in both
revisions.  For a connection that hosts no session and is in the listeners
set of the session at key `k`, the disconnect sweep removes it from that
set and decrements the listener count by exactly one, and dispatching the
same disconnect a second time leaves the state unchanged and emits
nothing. -/
theorem C8_theorem :
    (∀ (s : Part001.State) (c : String) (now now2 : Int) (k : String)
        (sess : Part001.Session),
      (∀ p ∈ s.activeSessions, p.2.hostSocketId ≠ c) →
      alookup k s.activeSessions = some sess →
      c ∈ sess.listeners →
      sess.listeners.Nodup →
      alookup k (Part001.step s ⟨c, now, Action.disconnect⟩).activeSessions =
        some ⟨sess.hostSocketId, sess.username, sess.song, sess.position,
          sess.isPlaying, sess.startedAt, sess.lastUpdate, setDel c sess.listeners⟩ ∧
      (setDel c sess.listeners).length + 1 = sess.listeners.length ∧
      c ∉ setDel c sess.listeners ∧
      Part001.dispatch c now2 (Part001.step s ⟨c, now, Action.disconnect⟩)
          Action.disconnect =
        some (Part001.step s ⟨c, now, Action.disconnect⟩, [])) ∧
    (∀ (s : IndexJs.State) (c : String) (now now2 : Int) (k : String)
        (sess : IndexJs.Session),
      (∀ p ∈ s.sessions, p.2.hostSocketId ≠ c) →
      alookup k s.sessions = some sess →
      c ∈ sess.listeners →
      sess.listeners.Nodup →
      alookup k (IndexJs.step s ⟨c, now, Action.disconnect⟩).sessions =
        some ⟨sess.hostSocketId, sess.song, sess.isPlaying, sess.position,
          sess.startedAt, setDel c sess.listeners⟩ ∧
      (setDel c sess.listeners).length + 1 = sess.listeners.length ∧
      c ∉ setDel c sess.listeners ∧
      IndexJs.dispatch c now2 (IndexJs.step s ⟨c, now, Action.disconnect⟩)
          Action.disconnect =
        (IndexJs.step s ⟨c, now, Action.disconnect⟩, [])) := by
  constructor
  · intro s c now now2 k sess hnh hk hc hnd
    have hstep : Part001.step s ⟨c, now, Action.disconnect⟩ =
        ⟨(Part001.sweep c now (alookup c s.socks) s.activeSessions).1,
         Part001.leaveAllRooms c s.rooms, s.socks⟩ := by
      simp [Part001.step, Part001.dispatch]
    have hsw : (Part001.sweep c now (alookup c s.socks) s.activeSessions).1 =
        s.activeSessions.map
          (fun p => (p.1, { p.2 with listeners := setDel c p.2.listeners })) :=
      Part001.sweep_fst_no_host hnh
    have hclean : ∀ p ∈ (Part001.sweep c now (alookup c s.socks) s.activeSessions).1,
        p.2.hostSocketId ≠ c ∧ c ∉ p.2.listeners := by
      rw [hsw]
      intro p hp
      obtain ⟨q, hq, rfl⟩ := List.mem_map.mp hp
      exact ⟨hnh q hq, fun hm => (mem_setDel.mp hm).2 rfl⟩
    refine ⟨?_, setDel_length hnd hc, fun hm => (mem_setDel.mp hm).2 rfl, ?_⟩
    · rw [hstep]
      show alookup k (Part001.sweep c now (alookup c s.socks) s.activeSessions).1 = _
      rw [hsw]
      have hmv := alookup_map_val
        (fun q : Part001.Session => { q with listeners := setDel c q.listeners }) k
        s.activeSessions
      rw [hk] at hmv
      exact hmv
    · rw [hstep]
      have hsw2 : Part001.sweep c now2 (alookup c s.socks)
          (Part001.sweep c now (alookup c s.socks) s.activeSessions).1 =
          ((Part001.sweep c now (alookup c s.socks) s.activeSessions).1, []) :=
        Part001.sweep_eq_of_clean hclean
      simp [Part001.dispatch, hsw2, Part001.leaveAllRooms_idem]
  · intro s c now now2 k sess hnh hk hc hnd
    have hstep : IndexJs.step s ⟨c, now, Action.disconnect⟩ =
        ⟨(IndexJs.sweep c now (alookup c s.socks) s.sessions).1,
         IndexJs.leaveAllRooms c s.rooms, s.socks⟩ := by
      simp [IndexJs.step, IndexJs.dispatch]
    have hsw : (IndexJs.sweep c now (alookup c s.socks) s.sessions).1 =
        s.sessions.map
          (fun p => (p.1, { p.2 with listeners := setDel c p.2.listeners })) :=
      IndexJs.sweep_fst_no_hostIdx hnh
    have hclean : ∀ p ∈ (IndexJs.sweep c now (alookup c s.socks) s.sessions).1,
        p.2.hostSocketId ≠ c ∧ c ∉ p.2.listeners := by
      rw [hsw]
      intro p hp
      obtain ⟨q, hq, rfl⟩ := List.mem_map.mp hp
      exact ⟨hnh q hq, fun hm => (mem_setDel.mp hm).2 rfl⟩
    refine ⟨?_, setDel_length hnd hc, fun hm => (mem_setDel.mp hm).2 rfl, ?_⟩
    · rw [hstep]
      show alookup k (IndexJs.sweep c now (alookup c s.socks) s.sessions).1 = _
      rw [hsw]
      have hmv := alookup_map_val
        (fun q : IndexJs.Session => { q with listeners := setDel c q.listeners }) k
        s.sessions
      rw [hk] at hmv
      exact hmv
    · rw [hstep]
      have hsw2 : IndexJs.sweep c now2 (alookup c s.socks)
          (IndexJs.sweep c now (alookup c s.socks) s.sessions).1 =
          ((IndexJs.sweep c now (alookup c s.socks) s.sessions).1, []) :=
        IndexJs.sweep_eq_of_cleanIdx hclean
      simp [IndexJs.dispatch, hsw2, IndexJs.leaveAllRooms_idemIdx]

/-- C8 witness: concrete instantiation. -/
theorem C8_witness :
    alookup "a" (Part001.step
      ⟨[("a", ⟨"h1", "a", some "X", 0, true, 0, 0, ["c1", "c9"]⟩)],
       [("live:a", ["h1", "c1", "c9"])], [("c1", ⟨some ("a", "bob")⟩)]⟩
      ⟨"c1", 20, Action.disconnect⟩).activeSessions =
      some ⟨"h1", "a", some "X", 0, true, 0, 0, setDel "c1" ["c1", "c9"]⟩ ∧
    (setDel "c1" ["c1", "c9"]).length + 1 = (["c1", "c9"] : List String).length ∧
    "c1" ∉ setDel "c1" ["c1", "c9"] ∧
    Part001.dispatch "c1" 21 (Part001.step
      ⟨[("a", ⟨"h1", "a", some "X", 0, true, 0, 0, ["c1", "c9"]⟩)],
       [("live:a", ["h1", "c1", "c9"])], [("c1", ⟨some ("a", "bob")⟩)]⟩
      ⟨"c1", 20, Action.disconnect⟩) Action.disconnect =
      some (Part001.step
        ⟨[("a", ⟨"h1", "a", some "X", 0, true, 0, 0, ["c1", "c9"]⟩)],
         [("live:a", ["h1", "c1", "c9"])], [("c1", ⟨some ("a", "bob")⟩)]⟩
        ⟨"c1", 20, Action.disconnect⟩, []) ∧
    alookup "a" (IndexJs.step
      ⟨[("a", ⟨"h1", some "X", true, 0, 0, ["c1"]⟩)], [("stream:a", ["h1", "c1"])],
       [("c1", ⟨some "a", some "bob"⟩)]⟩
      ⟨"c1", 20, Action.disconnect⟩).sessions =
      some ⟨"h1", some "X", true, 0, 0, setDel "c1" ["c1"]⟩ :=
  ⟨(C8_theorem.1 ⟨[("a", ⟨"h1", "a", some "X", 0, true, 0, 0, ["c1", "c9"]⟩)],
       [("live:a", ["h1", "c1", "c9"])], [("c1", ⟨some ("a", "bob")⟩)]⟩
      "c1" 20 21 "a" ⟨"h1", "a", some "X", 0, true, 0, 0, ["c1", "c9"]⟩
      (by decide) (by with_unfolding_all decide) (by decide) (by decide)).1,
   (C8_theorem.1 ⟨[("a", ⟨"h1", "a", some "X", 0, true, 0, 0, ["c1", "c9"]⟩)],
       [("live:a", ["h1", "c1", "c9"])], [("c1", ⟨some ("a", "bob")⟩)]⟩
      "c1" 20 21 "a" ⟨"h1", "a", some "X", 0, true, 0, 0, ["c1", "c9"]⟩
      (by decide) (by with_unfolding_all decide) (by decide) (by decide)).2.1,
   (C8_theorem.1 ⟨[("a", ⟨"h1", "a", some "X", 0, true, 0, 0, ["c1", "c9"]⟩)],
       [("live:a", ["h1", "c1", "c9"])], [("c1", ⟨some ("a", "bob")⟩)]⟩
      "c1" 20 21 "a" ⟨"h1", "a", some "X", 0, true, 0, 0, ["c1", "c9"]⟩
      (by decide) (by with_unfolding_all decide) (by decide) (by decide)).2.2.1,
   (C8_theorem.1 ⟨[("a", ⟨"h1", "a", some "X", 0, true, 0, 0, ["c1", "c9"]⟩)],
       [("live:a", ["h1", "c1", "c9"])], [("c1", ⟨some ("a", "bob")⟩)]⟩
      "c1" 20 21 "a" ⟨"h1", "a", some "X", 0, true, 0, 0, ["c1", "c9"]⟩
      (by decide) (by with_unfolding_all decide) (by decide) (by decide)).2.2.2,
   (C8_theorem.2 ⟨[("a", ⟨"h1", some "X", true, 0, 0, ["c1"]⟩)],
       [("stream:a", ["h1", "c1"])], [("c1", ⟨some "a", some "bob"⟩)]⟩
      "c1" 20 21 "a" ⟨"h1", some "X", true, 0, 0, ["c1"]⟩
      (by decide) (by with_unfolding_all decide) (by decide) (by decide)).1⟩

/-- C9 counterexample: the `listener:join` handler never excludes the host
connection, so a host that issues `listener:join` for its own identity
ends up in the listeners set of its own session, in both revisions —
refuting the claimed invariant that `listeners` never contains
`hostConnectionId`. -/
theorem C9_counterexample :
    ¬ Part001.HostNotListener (Part001.run Part001.initState
      [⟨"c1", 0, Action.hostStart (some "a") (some "X")⟩,
       ⟨"c1", 1, Action.listenerJoin (some "a") (some "al")⟩]) ∧
    ¬ IndexJs.HostNotListener (IndexJs.run IndexJs.initState
      [⟨"c1", 0, Action.hostStart (some "a") (some "X")⟩,
       ⟨"c1", 1, Action.listenerJoin (some "a") (some "al")⟩]) := by
  constructor
  · intro hP
    have hmem : ("a", (⟨"c1", "a", some "X", 0, true, 0, 0, ["c1"]⟩ : Part001.Session)) ∈
        (Part001.run Part001.initState
          [⟨"c1", 0, Action.hostStart (some "a") (some "X")⟩,
           ⟨"c1", 1, Action.listenerJoin (some "a") (some "al")⟩]).activeSessions := by
      with_unfolding_all decide
    exact hP _ hmem (by decide)
  · intro hP
    have hmem : ("a", (⟨"c1", some "X", true, 0, 0, ["c1"]⟩ : IndexJs.Session)) ∈
        (IndexJs.run IndexJs.initState
          [⟨"c1", 0, Action.hostStart (some "a") (some "X")⟩,
           ⟨"c1", 1, Action.listenerJoin (some "a") (some "al")⟩]).sessions := by
      with_unfolding_all decide
    exact hP _ hmem (by decide)

/-- C9 amended: in both revisions, `listeners` never contains
`hostConnectionId` in any state reachable from the initial state by a
trace containing no self-join — no `listener:join` issued by the current
host of the targeted session; every action kind other than such a
self-join preserves the invariant. -/
theorem C9_amended :
    (Part001.HostNotListener Part001.initState ∧
      ∀ (s : Part001.State) (tas : List TimedAction),
        Part001.HostNotListener s → Part001.NoSelfJoinRun s tas = true →
        Part001.HostNotListener (Part001.run s tas)) ∧
    (IndexJs.HostNotListener IndexJs.initState ∧
      ∀ (s : IndexJs.State) (tas : List TimedAction),
        IndexJs.HostNotListener s → IndexJs.NoSelfJoinRun s tas = true →
        IndexJs.HostNotListener (IndexJs.run s tas)) :=
  ⟨⟨fun p hp => by simp [Part001.initState] at hp,
    fun _ _ h hn => Part001.run_hostNotListener h hn⟩,
   ⟨fun p hp => by simp [IndexJs.initState] at hp,
    fun _ _ h hn => IndexJs.run_hostNotListenerIdx h hn⟩⟩

set_option maxRecDepth 10000 in
/-- C9 witness: concrete instantiation on a trace with a takeover, a
foreign listener join, an update and a disconnect. -/
theorem C9_witness :
    Part001.HostNotListener (Part001.run Part001.initState
      [⟨"c1", 0, Action.hostStart (some "a") (some "X")⟩,
       ⟨"c2", 1, Action.listenerJoin (some "a") (some "bob")⟩,
       ⟨"c3", 2, Action.hostStart (some "a") (some "Y")⟩,
       ⟨"c2", 3, Action.disconnect⟩]) ∧
    IndexJs.HostNotListener (IndexJs.run IndexJs.initState
      [⟨"c1", 0, Action.hostStart (some "a") (some "X")⟩,
       ⟨"c2", 1, Action.listenerJoin (some "a") (some "bob")⟩,
       ⟨"c3", 2, Action.hostStart (some "a") (some "Y")⟩,
       ⟨"c2", 3, Action.disconnect⟩]) :=
  ⟨C9_amended.1.2 Part001.initState
      [⟨"c1", 0, Action.hostStart (some "a") (some "X")⟩,
       ⟨"c2", 1, Action.listenerJoin (some "a") (some "bob")⟩,
       ⟨"c3", 2, Action.hostStart (some "a") (some "Y")⟩,
       ⟨"c2", 3, Action.disconnect⟩]
      C9_amended.1.1 (by with_unfolding_all decide),
   C9_amended.2.2 IndexJs.initState
      [⟨"c1", 0, Action.hostStart (some "a") (some "X")⟩,
       ⟨"c2", 1, Action.listenerJoin (some "a") (some "bob")⟩,
       ⟨"c3", 2, Action.hostStart (some "a") (some "Y")⟩,
       ⟨"c2", 3, Action.disconnect⟩]
      C9_amended.2.1 (by with_unfolding_all decide)⟩

set_option maxRecDepth 10000 in
/-- C10: in both revisions there is a reachable state in which `c1` hosts
session `a` and is simultaneously in the listeners set of session `b`;
processing the disconnect of `c1` removes session `a`, emits only the
`stream:ended` for room `a`, and returns from the sweep — leaving `c1` in
the listeners set of `b` and emitting no updated listener count for `b`. -/
theorem C10_theorem :
    Part001.dispatch "c1" 2
      (Part001.run Part001.initState
        [⟨"c1", 0, Action.hostStart (some "a") (some "X")⟩,
         ⟨"c2", 0, Action.hostStart (some "b") (some "Y")⟩,
         ⟨"c1", 1, Action.listenerJoin (some "b") (some "al")⟩])
      Action.disconnect =
      some (⟨[("b", ⟨"c2", "b", some "Y", 0, true, 0, 0, ["c1"]⟩)],
             [("live:a", []), ("live:b", ["c2"])],
             [("c1", ⟨some ("b", "al")⟩)]⟩,
            [⟨Target.room "live:a", Ev.streamEnded "Host disconnected"⟩]) ∧
    IndexJs.dispatch "c1" 2
      (IndexJs.run IndexJs.initState
        [⟨"c1", 0, Action.hostStart (some "a") (some "X")⟩,
         ⟨"c2", 0, Action.hostStart (some "b") (some "Y")⟩,
         ⟨"c1", 1, Action.listenerJoin (some "b") (some "al")⟩])
      Action.disconnect =
      (⟨[("b", ⟨"c2", some "Y", true, 0, 0, ["c1"]⟩)],
        [("stream:a", []), ("stream:b", ["c2"])],
        [("c1", ⟨some "b", some "al"⟩)]⟩,
       [⟨Target.room "stream:a", Ev.streamEnded "The host disconnected"⟩]) := by
  constructor <;> with_unfolding_all decide

end Moshcast
